import Mathlib

/-!
Verification of the Verai sandbox control layer.

This file shallowly embeds the control-plane code of the repository:
`src/game/sandbox/controller.py` (`SandboxController`),
`src/game/sandbox/simulation.py` (`SandboxSimulation.update`) and
`src/api/agent_interface.py` (`AgentInterface`), and proves or refutes
the specification claims about them.

Modelling conventions:
* Python `dict`s (which preserve insertion order, and update a key in
  place) are embedded as association lists `List (String × v)`.
* `datetime.now()` is an environment input; every public operation takes
  the current time as an extra `Nat` argument (seconds), and all
  `datetime.now()` calls inside one operation observe the same value.
* `str(datetime.now().timestamp())` is embedded as the decimal numeral
  of the `Nat` clock value (`pyStr`).
* Python exceptions are embedded with `Except String`; a handler that
  returns `Except.error e` models a handler that raises an exception
  whose `str` is `e`.
* `threading.Lock` is not reentrant; a `with self._lock` entered while
  the same task already holds the lock blocks forever.  Operations that
  can hit this are embedded with an `Option` result, `none` meaning the
  operation never completes.
-/

namespace Verai

/-! ## Python dictionary embedding -/

/-- `d[k] = v` on a Python dict: updates the key in place if present
(keeping its position), otherwise appends the new binding. -/
def dictSet {v : Type} (d : List (String × v)) (k : String) (val : v) :
    List (String × v) :=
  if (d.map Prod.fst).contains k then
    d.map (fun p => if p.1 = k then (k, val) else p)
  else
    d ++ [(k, val)]

/-- `d.get(k)` / `d[k]` lookup on a Python dict. -/
def dictGet {v : Type} (d : List (String × v)) (k : String) : Option v :=
  (d.find? (fun p => p.1 == k)).map Prod.snd

/-- `del d[k]` on a Python dict. -/
def dictDel {v : Type} (d : List (String × v)) (k : String) :
    List (String × v) :=
  d.filter (fun p => ¬ p.1 = k)

/-- `k in d` on a Python dict. -/
def dictMem {v : Type} (d : List (String × v)) (k : String) : Bool :=
  (d.map Prod.fst).contains k

/-- Boolean `<` on characters (by code point). -/
def charLtB (c₁ c₂ : Char) : Bool := c₁.val < c₂.val

/-- Boolean lexicographic `<` on character lists (Python's string
comparison), written structurally so it evaluates by kernel
reduction. -/
def strLtB : List Char → List Char → Bool
  | [], [] => false
  | [], _ :: _ => true
  | _ :: _, [] => false
  | a :: as, b :: bs => if a = b then strLtB as bs else charLtB a b

/-- Boolean `<` on strings; `pyStrLt_iff` below shows it agrees with the
order-theoretic `<` on `String`. -/
def pyStrLt (a b : String) : Bool := strLtB a.toList b.toList

/-- Python's `min(...)` over a nonempty collection of strings:
fold keeping the strictly smaller element. -/
def pyFoldMin (a : String) (l : List String) : String :=
  l.foldl (fun m k => if pyStrLt k m then k else m) a

/-- Python's `min(d.keys())`; `none` on an empty dict (where Python
would raise `ValueError`). -/
def pyMin (l : List String) : Option String :=
  match l with
  | [] => none
  | x :: xs => some (pyFoldMin x xs)

/-! ## Python `str` of a natural number

`str(datetime.now().timestamp())` produces the decimal numeral of the
timestamp.  We embed the clock as a `Nat` and `str` as the usual
decimal representation, built from the most significant digit. -/

/-- Number of decimal digits, with explicit fuel (the fuel argument
makes the definition structurally recursive; `numDigits` below supplies
enough fuel). -/
def numDigitsAux : Nat → Nat → Nat
  | 0, _ => 1
  | f + 1, n => if n < 10 then 1 else numDigitsAux f (n / 10) + 1

/-- Number of decimal digits of `n` (`1` for `n = 0`). -/
def numDigits (n : Nat) : Nat := numDigitsAux n n

/-- The `L` least-significant decimal digits of `n`, most significant
first (with leading zeros if `n < 10 ^ (L - 1)`). -/
def padDigits (L n : Nat) : List Nat :=
  (List.range L).reverse.map (fun i => n / 10 ^ i % 10)

/-- Embedding of Python `str` on a natural number: its decimal numeral. -/
def pyStr (n : Nat) : String :=
  String.mk ((padDigits (numDigits n) n).map Nat.digitChar)

/-! ## Sandbox controller data model (`src/game/sandbox/controller.py`) -/

/-- The `ControlCommand` enum. -/
inductive ControlCommand
  | START | PAUSE | RESUME | STOP | RESET | SAVE | LOAD
  deriving DecidableEq, Repr

/-- `ControlCommand.value` (the string payload of the Python enum). -/
def ControlCommand.value : ControlCommand → String
  | .START => "start"
  | .PAUSE => "pause"
  | .RESUME => "resume"
  | .STOP => "stop"
  | .RESET => "reset"
  | .SAVE => "save"
  | .LOAD => "load"

/-- The `SimulationState` enum (identical in `controller.py` and
`simulation.py`). -/
inductive SimulationState
  | INITIALIZING | RUNNING | PAUSED | STOPPED | ERROR
  deriving DecidableEq, Repr

/-- Rendering of a `SimulationState` value by Python `str`/f-strings. -/
def SimulationState.pyShow : SimulationState → String
  | .INITIALIZING => "SimulationState.INITIALIZING"
  | .RUNNING => "SimulationState.RUNNING"
  | .PAUSED => "SimulationState.PAUSED"
  | .STOPPED => "SimulationState.STOPPED"
  | .ERROR => "SimulationState.ERROR"

/-- Command parameters: a Python dict of strings. -/
abbrev Params := List (String × String)

/-- `p.get(k)` on a params dict. -/
def Params.pyGet (p : Params) (k : String) : Option String :=
  (p.find? (fun q => q.1 == k)).map Prod.snd

/-- Python falsiness of an optional string (`None` or `''`). -/
def optFalsy (o : Option String) : Bool :=
  match o with
  | none => true
  | some s => s = ""

/-- The result dict returned by controller operations.  The Python code
builds ad hoc dicts; each optional field models a key that may or may
not be present. -/
structure CommandResult where
  success : Bool
  command : Option String := none
  reason : Option String := none
  simulation_id : Option String := none
  start_time : Option Nat := none
  save_id : Option String := none
  timestamp : Option Nat := none
  state : Option SimulationState := none
  deriving DecidableEq, Repr

/-- A `command_history` entry built by `SandboxController._log_command`. -/
structure CommandLogEntry where
  timestamp : Nat
  command : String
  params : Option Params
  result : CommandResult
  deriving DecidableEq, Repr

/-- The mutable state of a `SandboxSimulation` as seen by the claims:
its id, lifecycle state, clock, time scale, and (σ) the opaque
subsystem-state blob captured/restored by `get_state`/`set_state`. -/
structure SandboxSimulation (σ : Type) where
  simulation_id : String
  state : SimulationState
  current_time : ℚ
  time_scale : ℚ
  data : σ
  deriving DecidableEq, Repr

/-- Modelled from the spec: `SandboxSimulation.get_state` is absent from
`simulation.py`; the spec's subsystem contract is
`getState() -> opaque blob` and `Save` "captures `getState()` from every
Subsystem into one `SnapshotRecord`".  We model the captured blob as the
simulation's opaque `data` field. -/
def SandboxSimulation.get_state {σ : Type} (s : SandboxSimulation σ) : σ :=
  s.data

/-- Modelled from the spec: `SandboxSimulation.set_state` is absent from
`simulation.py`; the spec's subsystem contract is `setState(blob) -> void`,
restoring the recorded per-subsystem blobs. -/
def SandboxSimulation.set_state {σ : Type} (s : SandboxSimulation σ) (b : σ) :
    SandboxSimulation σ :=
  { s with data := b }

/-- The mutable state of a `SandboxController`. -/
structure SandboxController (σ : Type) where
  simulation : SandboxSimulation σ
  command_history : List CommandLogEntry
  save_states : List (String × σ)
  active_commands : List (String × Params)
  is_processing : Bool
  last_update : Nat
  error_count : Nat
  deriving DecidableEq, Repr

/-- `MAX_HISTORY_ENTRIES` (set in `SandboxController.__init__`). -/
def MAX_HISTORY_ENTRIES : Nat := 1000

/-- `MAX_SAVE_STATES` (set in `SandboxController.__init__`). -/
def MAX_SAVE_STATES : Nat := 10

/-- `SandboxController.__init__(simulation)`. -/
def SandboxController.init {σ : Type} (simulation : SandboxSimulation σ)
    (now : Nat) : SandboxController σ :=
  { simulation := simulation
    command_history := []
    save_states := []
    active_commands := []
    is_processing := false
    last_update := now
    error_count := 0 }

/-- The list-level content of `_trim_history`: `history[-MAX:]` when over
the bound. -/
def trimList (l : List CommandLogEntry) : List CommandLogEntry :=
  if l.length > MAX_HISTORY_ENTRIES then
    l.drop (l.length - MAX_HISTORY_ENTRIES)
  else l

/-- `SandboxController._trim_history`. -/
def SandboxController.trim_history {σ : Type} (c : SandboxController σ) :
    SandboxController σ :=
  { c with command_history := trimList c.command_history }

/-- `SandboxController._trim_save_states`: if over the bound, delete the
`min` of the (string) keys. -/
def SandboxController.trim_save_states {σ : Type} (c : SandboxController σ) :
    SandboxController σ :=
  if c.save_states.length > MAX_SAVE_STATES then
    match pyMin (c.save_states.map Prod.fst) with
    | some oldest => { c with save_states := dictDel c.save_states oldest }
    | none => c
  else c

/-- Modelled from the spec: `SandboxController._apply_simulation_params`
is called by `_start_simulation` but absent from `controller.py`.  The
spec's configuration surface (§6) lists recognized options and no
failure mode for applying them, so the model applies them with no
observable effect on the fields the claims mention and never raises. -/
def SandboxController.apply_simulation_params {σ : Type}
    (c : SandboxController σ) (_p : Params) : Except String (SandboxController σ) :=
  .ok c

/-- `SandboxController._start_simulation`. -/
def SandboxController.start_simulation {σ : Type} (c : SandboxController σ)
    (params : Option Params) (now : Nat) :
    SandboxController σ × Except String CommandResult :=
  if c.simulation.state ≠ SimulationState.INITIALIZING then
    (c, .ok { success := false, reason := some "Simulation already started" })
  else
    let applied : Except String (SandboxController σ) :=
      match params with
      | some p => if p ≠ [] then c.apply_simulation_params p else .ok c
      | none => .ok c
    match applied with
    | .error e =>
        ({ c with simulation := { c.simulation with state := SimulationState.ERROR } },
         .error e)
    | .ok c' =>
        ({ c' with
            simulation := { c'.simulation with state := SimulationState.RUNNING },
            last_update := now },
         .ok { success := true,
               simulation_id := some c'.simulation.simulation_id,
               start_time := some now })

/-- Modelled from the spec: `SandboxController._pause_simulation` is
dispatched by `execute_command` but absent from `controller.py`.  Spec
§4.2/§6: `Pause` fails ("illegal in current state") unless the state is
`Running`; on success the state becomes `Paused` and `{state}` is
returned. -/
def SandboxController.pause_simulation {σ : Type} (c : SandboxController σ) :
    SandboxController σ × Except String CommandResult :=
  if c.simulation.state = SimulationState.RUNNING then
    ({ c with simulation := { c.simulation with state := SimulationState.PAUSED } },
     .ok { success := true, state := some SimulationState.PAUSED })
  else
    (c, .ok { success := false, reason := some "illegal in current state" })

/-- Modelled from the spec: `SandboxController._resume_simulation` is
dispatched by `execute_command` but absent from `controller.py`.  Spec
§4.2/§6: `Resume` fails unless the state is `Paused`; on success the
state becomes `Running`. -/
def SandboxController.resume_simulation {σ : Type} (c : SandboxController σ) :
    SandboxController σ × Except String CommandResult :=
  if c.simulation.state = SimulationState.PAUSED then
    ({ c with simulation := { c.simulation with state := SimulationState.RUNNING } },
     .ok { success := true, state := some SimulationState.RUNNING })
  else
    (c, .ok { success := false, reason := some "illegal in current state" })

/-- Modelled from the spec: `SandboxController._stop_simulation` is
dispatched by `execute_command` but absent from `controller.py`.  Spec
§4.1 state machine `Running ⇄ Paused → Stopped`: `Stop` is legal from
`Running` or `Paused` and moves to `Stopped`, otherwise fails. -/
def SandboxController.stop_simulation {σ : Type} (c : SandboxController σ) :
    SandboxController σ × Except String CommandResult :=
  if c.simulation.state = SimulationState.RUNNING ∨
     c.simulation.state = SimulationState.PAUSED then
    ({ c with simulation := { c.simulation with state := SimulationState.STOPPED } },
     .ok { success := true, state := some SimulationState.STOPPED })
  else
    (c, .ok { success := false, reason := some "illegal in current state" })

/-- Modelled from the spec: `SandboxController._reset_simulation` is
dispatched by `execute_command` but absent from `controller.py`.  Spec
§4.1/§6: `Reset` always succeeds, returns `{state: Initializing}`, and
is the only transition out of `Error` (`Error → Initializing`). -/
def SandboxController.reset_simulation {σ : Type} (c : SandboxController σ) :
    SandboxController σ × Except String CommandResult :=
  ({ c with simulation := { c.simulation with state := SimulationState.INITIALIZING } },
   .ok { success := true, state := some SimulationState.INITIALIZING })

/-- `SandboxController._save_state`.  `save_id = str(datetime.now().timestamp())`;
`get_state()` (spec-modelled, total) is captured into `save_states`, then
`_trim_save_states` runs. -/
def SandboxController.save_state {σ : Type} (c : SandboxController σ)
    (_params : Option Params) (now : Nat) :
    SandboxController σ × Except String CommandResult :=
  let save_id := pyStr now
  let state_data := c.simulation.get_state
  let c' := SandboxController.trim_save_states
    { c with save_states := dictSet c.save_states save_id state_data }
  (c', .ok { success := true, save_id := some save_id, timestamp := some now })

/-- `SandboxController._load_state`.  With `params = None` the attribute
access `params.get('save_id')` raises (`AttributeError`) before the
`try` block; otherwise a missing or unknown `save_id` yields the
"Save state not found" failure, and a hit calls `set_state`
(spec-modelled) with the recorded blob. -/
def SandboxController.load_state {σ : Type} (c : SandboxController σ)
    (params : Option Params) (now : Nat) :
    SandboxController σ × Except String CommandResult :=
  match params with
  | none => (c, .error "AttributeError: NoneType object has no attribute get")
  | some p =>
    let save_id := p.pyGet "save_id"
    match save_id with
    | none => (c, .ok { success := false, reason := some "Save state not found" })
    | some sid =>
      if sid = "" ∨ ¬ dictMem c.save_states sid then
        (c, .ok { success := false, reason := some "Save state not found" })
      else
        match dictGet c.save_states sid with
        | none => (c, .ok { success := false, reason := some "Save state not found" })
        | some blob =>
          ({ c with simulation := c.simulation.set_state blob },
           .ok { success := true, save_id := some sid, timestamp := some now })

/-- `SandboxController._log_command`: append one entry. -/
def SandboxController.log_command {σ : Type} (c : SandboxController σ)
    (now : Nat) (command : ControlCommand) (params : Option Params)
    (result : CommandResult) : SandboxController σ :=
  { c with command_history :=
      c.command_history ++
        [{ timestamp := now, command := command.value, params := params,
           result := result }] }

/-- The command dispatch inside `execute_command`'s `try` block (the
`if/elif` chain selecting the handler).  The `Except.error` branch of the
second component models the handler raising. -/
def SandboxController.dispatch {σ : Type} (c : SandboxController σ)
    (command : ControlCommand) (params : Option Params) (now : Nat) :
    SandboxController σ × Except String CommandResult :=
  match command with
  | .START => c.start_simulation params now
  | .PAUSE => c.pause_simulation
  | .RESUME => c.resume_simulation
  | .STOP => c.stop_simulation
  | .RESET => c.reset_simulation
  | .SAVE => c.save_state params now
  | .LOAD => c.load_state params now

/-- `SandboxController.execute_command`.  Mirrors the Python control
flow: busy check, dispatch inside `try`, `_log_command` + `_trim_history`
on normal return, `except` branch writing `result['reason']` into the
initial result dict and bumping `error_count`, `finally` clearing
`is_processing`. -/
def SandboxController.execute_command {σ : Type} (c : SandboxController σ)
    (command : ControlCommand) (params : Option Params) (now : Nat) :
    SandboxController σ × CommandResult :=
  if c.is_processing then
    (c, { success := false, reason := some "Controller is busy" })
  else
    let c1 : SandboxController σ := { c with is_processing := true }
    let result0 : CommandResult := { success := false, command := some command.value }
    match c1.dispatch command params now with
    | (c2, .ok r) =>
        let c3 := (c2.log_command now command params r).trim_history
        ({ c3 with is_processing := false }, r)
    | (c2, .error e) =>
        ({ c2 with error_count := c2.error_count + 1, is_processing := false },
         { result0 with reason := some e })

/-- Fold a sequence of `execute_command` calls (command, params, clock
value at the call). -/
def SandboxController.execSeq {σ : Type} (c : SandboxController σ)
    (ops : List (ControlCommand × Option Params × Nat)) : SandboxController σ :=
  ops.foldl (fun st op => (st.execute_command op.1 op.2.1 op.2.2).1) c

/-! ## Simulation tick (`SandboxSimulation.update` in
`src/game/sandbox/simulation.py`)

`update` invokes, in order: `_pre_update`, `environment.update`,
`physics.update`, `_update_agents`, `_resolve_combat`, `_update_social`,
`_update_factions`, `_post_update`, `_collect_events`,
`_update_metrics`, and only then advances `current_time`.  The bodies of
these steps call external subsystems (and several helpers absent from
`simulation.py`; the spec's subsystem contract is
`update(deltaTime) -> {events, metrics}`), so each step is an oracle
input: `Except.error e` models that step raising an exception. -/

/-- One tick's oracle: the outcome each step of the tick body would
produce if invoked. -/
structure TickOracle where
  pre_update : Except String Unit
  environment : Except String Unit
  physics : Except String Unit
  update_agents : Except String Unit
  resolve_combat : Except String Unit
  update_social : Except String Unit
  update_factions : Except String Unit
  post_update : Except String Unit
  collect_events : Except String Unit
  update_metrics : Except String Unit
  deriving Repr

/-- The tick body's steps, in the source's invocation order. -/
def TickOracle.steps (o : TickOracle) : List (String × Except String Unit) :=
  [("pre_update", o.pre_update),
   ("environment", o.environment),
   ("physics", o.physics),
   ("update_agents", o.update_agents),
   ("resolve_combat", o.resolve_combat),
   ("update_social", o.update_social),
   ("update_factions", o.update_factions),
   ("post_update", o.post_update),
   ("collect_events", o.collect_events),
   ("update_metrics", o.update_metrics)]

/-- Run steps in order: return the names actually invoked and the first
raised exception, if any.  A step after a raising step is never invoked. -/
def runSteps : List (String × Except String Unit) → List String × Option String
  | [] => ([], none)
  | (n, Except.ok _) :: rest =>
      let r := runSteps rest
      (n :: r.1, r.2)
  | (n, Except.error e) :: _ => ([n], some e)

/-- The result dict of `SandboxSimulation.update`. -/
structure UpdateResult where
  success : Bool
  reason : Option String := none
  time : Option ℚ := none
  deriving DecidableEq, Repr

/-- `SandboxSimulation.update(delta_time)`.  Returns the new simulation,
the result dict, and (as an observation of the run) the list of step
names that were invoked. -/
def SandboxSimulation.update {σ : Type} (sim : SandboxSimulation σ)
    (o : TickOracle) (delta_time : ℚ) :
    SandboxSimulation σ × UpdateResult × List String :=
  if sim.state ≠ SimulationState.RUNNING then
    (sim,
     { success := false,
       reason := some ("Simulation not running: " ++ sim.state.pyShow) },
     [])
  else
    let scaled_delta := delta_time * sim.time_scale
    match runSteps o.steps with
    | (invoked, some e) =>
        ({ sim with state := SimulationState.ERROR },
         { success := false, reason := some e },
         invoked)
    | (invoked, none) =>
        ({ sim with current_time := sim.current_time + scaled_delta },
         { success := true, time := some sim.current_time },
         invoked)

/-! ## Agent interface (`src/api/agent_interface.py`) -/

/-- The `AgentState` enum. -/
inductive AgentState
  | INITIALIZING | ACTIVE | INACTIVE | DISCONNECTED | ERROR
  deriving DecidableEq, Repr

/-- An agent descriptor (`agent_data` dict); `id` is what
`agent_data.get('id')` returns (`none` models a missing key). -/
structure AgentData where
  id : Option String
  deriving DecidableEq, Repr

/-- State of an `AgentInterface`.  Handler/connection objects are
opaque (`Unit`). -/
structure AgentInterface where
  registered_agents : List (String × AgentData)
  agent_states : List (String × AgentState)
  active_connections : List (String × Unit)
  connection_timestamps : List (String × Nat)
  event_handlers : List (String × List (String × Unit))
  last_event_time : List (String × Nat)
  deriving DecidableEq, Repr

/-- `MAX_CONNECTIONS` (set in `AgentInterface.__init__`). -/
def MAX_CONNECTIONS : Nat := 1000

/-- `CONNECTION_TIMEOUT` in seconds (set in `AgentInterface.__init__`). -/
def CONNECTION_TIMEOUT : Nat := 30

/-- `AgentInterface.__init__`. -/
def AgentInterface.init : AgentInterface :=
  { registered_agents := []
    agent_states := []
    active_connections := []
    connection_timestamps := []
    event_handlers := []
    last_event_time := [] }

/-- The result dict of `register_agent` / `connect_agent`. -/
structure RegisterResult where
  success : Bool
  reason : Option String := none
  agent_id : Option String := none
  timestamp : Option Nat := none
  deriving DecidableEq, Repr

/-- `AgentInterface.register_agent(agent_data)`.  Checks, in the
source's order: falsy id, `len(registered_agents) >= MAX_CONNECTIONS`,
id already registered; otherwise stores the descriptor and sets the
agent state to `INITIALIZING`. -/
def AgentInterface.register_agent (ai : AgentInterface) (agent_data : AgentData)
    (now : Nat) : AgentInterface × RegisterResult :=
  if optFalsy agent_data.id then
    (ai, { success := false, reason := some "No agent ID provided" })
  else
    match agent_data.id with
    | none => (ai, { success := false, reason := some "No agent ID provided" })
    | some agent_id =>
      if ai.registered_agents.length ≥ MAX_CONNECTIONS then
        (ai, { success := false, reason := some "Maximum connections reached" })
      else if dictMem ai.registered_agents agent_id then
        (ai, { success := false, reason := some "Agent already registered" })
      else
        ({ ai with
            registered_agents := dictSet ai.registered_agents agent_id agent_data,
            agent_states := dictSet ai.agent_states agent_id AgentState.INITIALIZING },
         { success := true, agent_id := some agent_id, timestamp := some now })

/-- `AgentInterface.connect_agent(agent_id)`. -/
def AgentInterface.connect_agent (ai : AgentInterface) (agent_id : String)
    (now : Nat) : AgentInterface × RegisterResult :=
  if ¬ dictMem ai.registered_agents agent_id then
    (ai, { success := false, reason := some "Agent not registered" })
  else
    ({ ai with
        agent_states := dictSet ai.agent_states agent_id AgentState.ACTIVE,
        connection_timestamps := dictSet ai.connection_timestamps agent_id now,
        active_connections := dictSet ai.active_connections agent_id () },
     { success := true, agent_id := some agent_id })

/-- `timedelta.seconds` of a nonnegative whole-second delta: the seconds
component excluding whole days (`delta % 86400`), NOT the total number
of seconds. -/
def timedeltaSeconds (delta : Nat) : Nat := delta % 86400

/-- `AgentInterface._disconnect_agent(agent_id)`.  The body opens
`with self._lock`; `threading.Lock` is not reentrant, so if the calling
task already holds the lock the acquisition blocks forever (`none`). -/
def AgentInterface.disconnect_agent (ai : AgentInterface)
    (lock_already_held : Bool) (agent_id : String) : Option AgentInterface :=
  if lock_already_held then
    none
  else
    some { ai with
      active_connections := dictDel ai.active_connections agent_id,
      connection_timestamps := dictDel ai.connection_timestamps agent_id,
      agent_states :=
        if dictMem ai.agent_states agent_id then
          dictSet ai.agent_states agent_id AgentState.DISCONNECTED
        else ai.agent_states }

/-- The loop body of `_cleanup_inactive_connections`, iterating over a
snapshot of `connection_timestamps.items()` while holding the lock. -/
def cleanupLoop (ai : AgentInterface) (now : Nat) :
    List (String × Nat) → Option AgentInterface
  | [] => some ai
  | (agent_id, ts) :: rest =>
    if timedeltaSeconds (now - ts) > CONNECTION_TIMEOUT then
      match ai.disconnect_agent true agent_id with
      | none => none
      | some ai' => cleanupLoop ai' now rest
    else cleanupLoop ai now rest

/-- `AgentInterface._cleanup_inactive_connections`: acquires the lock,
then iterates; each stale entry is passed to `_disconnect_agent`, which
re-acquires the already-held non-reentrant lock. -/
def AgentInterface.cleanup_inactive_connections (ai : AgentInterface)
    (now : Nat) : Option AgentInterface :=
  cleanupLoop ai now ai.connection_timestamps

/-- `AgentInterface._cleanup_old_events`: drop every event-handler table
whose agent id is no longer registered. -/
def AgentInterface.cleanup_old_events (ai : AgentInterface) : AgentInterface :=
  { ai with event_handlers :=
      (ai.event_handlers.filter
        (fun p => dictMem ai.registered_agents p.1)) }

/-- One pass of the `_periodic_cleanup` janitor loop body:
`await self._cleanup_inactive_connections()` then
`self._cleanup_old_events()`.  `none` means the pass never completes. -/
def AgentInterface.janitor_pass (ai : AgentInterface) (now : Nat) :
    Option AgentInterface :=
  match ai.cleanup_inactive_connections now with
  | none => none
  | some ai' => some ai'.cleanup_old_events

/-- `AgentInterface.register_event_handler(agent_id, event_type, handler)`
(with an invocable handler, modelled `()`). -/
def AgentInterface.register_event_handler (ai : AgentInterface)
    (agent_id event_type : String) (now : Nat) : AgentInterface × RegisterResult :=
  if ¬ dictMem ai.registered_agents agent_id then
    (ai, { success := false, reason := some "Agent not found" })
  else
    let table := (dictGet ai.event_handlers agent_id).getD []
    ({ ai with
        event_handlers := dictSet ai.event_handlers agent_id
          (dictSet table event_type ()),
        last_event_time := dictSet ai.last_event_time agent_id now },
     { success := true, agent_id := some agent_id })

/-- Register a whole list of agent descriptors in sequence, collecting
the per-call results. -/
def regSeq (ai : AgentInterface) (ids : List String) (now : Nat) :
    AgentInterface × List RegisterResult :=
  match ids with
  | [] => (ai, [])
  | id :: rest =>
    let step := ai.register_agent { id := some id } now
    let tail := regSeq step.1 rest now
    (tail.1, step.2 :: tail.2)

/-! ## Concrete fixtures for witnesses and counterexamples -/

/-- A concrete simulation in state `Initializing`. -/
def wSim : SandboxSimulation Nat :=
  { simulation_id := "sim1", state := SimulationState.INITIALIZING,
    current_time := 0, time_scale := 1, data := 42 }

/-- A freshly initialised controller over `wSim`. -/
def wCtrl : SandboxController Nat := SandboxController.init wSim 0

/-- A concrete simulation in state `Running`. -/
def wSimRun : SandboxSimulation Nat :=
  { simulation_id := "sim1", state := SimulationState.RUNNING,
    current_time := 5, time_scale := 2, data := 42 }

/-- A tick oracle in which every step succeeds. -/
def okOracle : TickOracle :=
  { pre_update := .ok (), environment := .ok (), physics := .ok (),
    update_agents := .ok (), resolve_combat := .ok (), update_social := .ok (),
    update_factions := .ok (), post_update := .ok (), collect_events := .ok (),
    update_metrics := .ok () }

/-- A tick oracle in which the physics subsystem raises. -/
def badOracle : TickOracle :=
  { okOracle with physics := .error "RuntimeError: physics exploded" }

/-- The controller after ten `Save` commands at clock values
`20, …, 29`, with a full snapshot store. -/
def c4ctrlTen : SandboxController Nat :=
  wCtrl.execSeq ((List.range 10).map
    (fun i => (ControlCommand.SAVE, (none : Option Params), 20 + i)))

/-- Eleven `Save` commands at clock values `9, 10, …, 19`. -/
def c6ops : List (ControlCommand × Option Params × Nat) :=
  (List.range 11).map
    (fun i => (ControlCommand.SAVE, (none : Option Params), 9 + i))

/-- The controller after `c6ops`. -/
def c6ctrl : SandboxController Nat := wCtrl.execSeq c6ops

/-- A concrete controller whose snapshot store is full (ten snapshots
with equal-length saveIds captured at clock values `20, …, 29`). -/
def c6full : SandboxController Nat :=
  { simulation := wSim
    command_history := []
    save_states := (List.range 10).map (fun i => (pyStr (20 + i), i))
    active_commands := []
    is_processing := false
    last_update := 0
    error_count := 0 }

/-- Pairwise-distinct nonempty agent ids: `uid i` is the string of
`i + 1` letters `a`. -/
def uid (i : Nat) : String := String.mk (List.replicate (i + 1) 'a')

/-- One thousand pairwise-distinct agent ids. -/
def wIds : List String := (List.range MAX_CONNECTIONS).map uid

/-- An `AgentInterface` with one registered, connected agent whose
`lastActivityTimestamp` is `0`. -/
def c8ai : AgentInterface :=
  ((AgentInterface.init.register_agent { id := some "agent1" } 0).1.connect_agent
    "agent1" 0).1

/-- An `AgentInterface` state with an event-handler table for an agent
id that is not registered (to exhibit `_cleanup_old_events`). -/
def c8aiOrphan : AgentInterface :=
  { c8ai with event_handlers := [("ghost", [("tick", ())])] }

/-- A concrete simulation in state `Paused` (not `Running`). -/
def wSimPaused : SandboxSimulation Nat :=
  { simulation_id := "sim1", state := SimulationState.PAUSED,
    current_time := 5, time_scale := 2, data := 42 }

/-- A concrete simulation in state `Error`. -/
def wSimErr : SandboxSimulation Nat :=
  { simulation_id := "sim1", state := SimulationState.ERROR,
    current_time := 5, time_scale := 2, data := 42 }

/-- A controller whose simulation is in state `Error`. -/
def wCtrlErr : SandboxController Nat := SandboxController.init wSimErr 0

/-- A controller whose simulation is in state `Running` (so a second
`Start` is illegal). -/
def wCtrlRun : SandboxController Nat := SandboxController.init wSimRun 0

/-- An `AgentInterface` with the single agent id `"a"` registered. -/
def wAi1 : AgentInterface :=
  (AgentInterface.init.register_agent { id := some "a" } 0).1

/-! ## Association-list (Python dict) lemmas -/

theorem dictMem_iff {v : Type} (d : List (String × v)) (k : String) :
    dictMem d k = true ↔ k ∈ d.map Prod.fst := by
  simp [dictMem, List.elem_iff]

theorem dictSet_of_not_mem {v : Type} {d : List (String × v)} {k : String}
    (h : k ∉ d.map Prod.fst) (val : v) : dictSet d k val = d ++ [(k, val)] := by
  rw [dictSet, if_neg]
  simpa [List.elem_iff] using h

theorem dictSet_length_le {v : Type} (d : List (String × v)) (k : String)
    (val : v) : (dictSet d k val).length ≤ d.length + 1 := by
  rw [dictSet]
  split
  · simp
  · simp

theorem dictGet_cons_self {v : Type} {q : String × v} {d : List (String × v)}
    {k : String} (h : q.1 = k) : dictGet (q :: d) k = some q.2 := by
  simp [dictGet, List.find?_cons, show (q.1 == k) = true by simpa using h]

theorem dictGet_cons_ne {v : Type} {q : String × v} {d : List (String × v)}
    {k : String} (h : ¬ q.1 = k) : dictGet (q :: d) k = dictGet d k := by
  simp [dictGet, List.find?_cons, show (q.1 == k) = false by simpa using h]

theorem dictSet_cons_ne {v : Type} {q : String × v} {d : List (String × v)}
    {k : String} (h : ¬ q.1 = k) (val : v) :
    dictSet (q :: d) k val = q :: dictSet d k val := by
  simp only [dictSet, List.map_cons, List.contains_cons,
    show (k == q.1) = false by simpa using fun he => h he.symm, Bool.false_or]
  split
  · simp [if_neg h]
  · simp

theorem dictDel_cons {v : Type} (q : String × v) (d : List (String × v))
    (k : String) :
    dictDel (q :: d) k = if q.1 = k then dictDel d k else q :: dictDel d k := by
  by_cases h : q.1 = k
  · simp [dictDel, List.filter_cons, h]
  · simp [dictDel, List.filter_cons, h]

theorem dictGet_set_self {v : Type} (d : List (String × v)) (k : String)
    (val : v) : dictGet (dictSet d k val) k = some val := by
  induction d with
  | nil => simp [dictSet, dictGet]
  | cons q d ih =>
    by_cases hq : q.1 = k
    · have hc : ((q :: d).map Prod.fst).contains k = true := by
        simp only [List.map_cons, List.contains_cons]
        have hbeq : (k == q.1) = true := by simpa using hq.symm
        simp [hbeq]
      rw [dictSet, if_pos hc]
      simp only [List.map_cons, if_pos hq]
      exact dictGet_cons_self (q := (k, val)) rfl
    · rw [dictSet_cons_ne hq, dictGet_cons_ne hq]
      exact ih

theorem dictGet_del_ne {v : Type} (d : List (String × v)) {m k : String}
    (h : m ≠ k) : dictGet (dictDel d m) k = dictGet d k := by
  induction d with
  | nil => rfl
  | cons q d ih =>
    rw [dictDel_cons]
    by_cases hq : q.1 = m
    · have hk : ¬ q.1 = k := by rw [hq]; exact h
      rw [if_pos hq, dictGet_cons_ne hk]
      exact ih
    · rw [if_neg hq]
      by_cases hk : q.1 = k
      · rw [dictGet_cons_self hk, dictGet_cons_self hk]
      · rw [dictGet_cons_ne hk, dictGet_cons_ne hk]
        exact ih

theorem dictDel_eq_self {v : Type} {d : List (String × v)} {k : String}
    (h : k ∉ d.map Prod.fst) : dictDel d k = d := by
  rw [dictDel, List.filter_eq_self]
  intro p hp
  simp only [decide_not]
  have : ¬ p.1 = k := fun he => h (List.mem_map.mpr ⟨p, hp, he⟩)
  simpa using this

theorem dictDel_length_lt {v : Type} {d : List (String × v)} {k : String}
    (h : k ∈ d.map Prod.fst) : (dictDel d k).length < d.length := by
  rw [dictDel, List.length_filter_lt_length_iff_exists]
  obtain ⟨p, hp, hpk⟩ := List.mem_map.mp h
  exact ⟨p, hp, by simpa using hpk⟩

theorem dictGet_isSome_mem {v : Type} {d : List (String × v)} {k : String}
    {val : v} (h : dictGet d k = some val) : k ∈ d.map Prod.fst := by
  induction d with
  | nil => simp [dictGet] at h
  | cons q d ih =>
    by_cases hq : q.1 = k
    · exact List.mem_map.mpr ⟨q, List.mem_cons_self q d, hq⟩
    · simp only [dictGet, List.find?_cons,
        show (q.1 == k) = false by simpa using hq] at h
      exact List.mem_cons_of_mem _ (ih h)

/-! ## `pyMin` lemmas -/

theorem lex_inversion {α : Type} {r : α → α → Prop} {a b : α}
    {l₁ l₂ : List α} (hne : a ≠ b) :
    List.Lex r (a :: l₁) (b :: l₂) ↔ r a b := by
  constructor
  · intro h
    cases h with
    | cons h => exact absurd rfl hne
    | rel h => exact h
  · intro h
    exact List.Lex.rel h

theorem strLtB_iff_lex : ∀ l₁ l₂ : List Char,
    (strLtB l₁ l₂ = true ↔ List.Lex (· < ·) l₁ l₂) := by
  intro l₁
  induction l₁ with
  | nil =>
    intro l₂
    cases l₂ with
    | nil =>
      simp only [strLtB]
      constructor
      · intro h; cases h
      · intro h; exact absurd h (List.Lex.not_nil_right _ _)
    | cons b bs =>
      simp only [strLtB]
      exact ⟨fun _ => List.Lex.nil, fun _ => trivial⟩
  | cons a as ih =>
    intro l₂
    cases l₂ with
    | nil =>
      simp only [strLtB]
      constructor
      · intro h; cases h
      · intro h; exact absurd h (List.Lex.not_nil_right _ _)
    | cons b bs =>
      by_cases hab : a = b
      · subst hab
        simp only [strLtB, if_pos rfl, List.Lex.cons_iff]
        exact ih bs
      · simp only [strLtB, if_neg hab]
        rw [lex_inversion hab]
        simp only [charLtB]
        constructor
        · intro h
          exact Char.lt_def.mpr (by simpa using h)
        · intro h
          simpa using Char.lt_def.mp h

theorem pyStrLt_iff (a b : String) : pyStrLt a b = true ↔ a < b := by
  rw [pyStrLt, strLtB_iff_lex, String.lt_iff_toList_lt]
  exact Iff.rfl

theorem pyFoldMin_cons (a k : String) (ks : List String) :
    pyFoldMin a (k :: ks) = pyFoldMin (if pyStrLt k a then k else a) ks := by
  simp [pyFoldMin]

theorem pyFoldMin_eq_of_lt {a : String} {l : List String}
    (h : ∀ x ∈ l, a < x) : pyFoldMin a l = a := by
  induction l with
  | nil => rfl
  | cons k ks ih =>
    have hk : a < k := h k (List.mem_cons_self k ks)
    have hb : ¬ (pyStrLt k a = true) := by
      rw [pyStrLt_iff]
      exact not_lt_of_lt hk
    rw [pyFoldMin_cons, if_neg hb]
    exact ih (fun x hx => h x (List.mem_cons_of_mem k hx))

theorem pyFoldMin_le (a : String) (l : List String) :
    pyFoldMin a l ≤ a ∧ ∀ x ∈ l, pyFoldMin a l ≤ x := by
  induction l generalizing a with
  | nil => exact ⟨le_refl a, by simp⟩
  | cons k ks ih =>
    rw [pyFoldMin_cons]
    by_cases hk : k < a
    · rw [if_pos ((pyStrLt_iff k a).mpr hk)]
      obtain ⟨h1, h2⟩ := ih k
      refine ⟨le_trans h1 (le_of_lt hk), ?_⟩
      intro x hx
      rcases List.mem_cons.mp hx with he | hm
      · rw [he]; exact h1
      · exact h2 x hm
    · rw [if_neg (fun hb => hk ((pyStrLt_iff k a).mp hb))]
      obtain ⟨h1, h2⟩ := ih a
      refine ⟨h1, ?_⟩
      intro x hx
      rcases List.mem_cons.mp hx with he | hm
      · rw [he]; exact le_trans h1 (le_of_not_lt hk)
      · exact h2 x hm

theorem pyFoldMin_mem (a : String) (l : List String) :
    pyFoldMin a l = a ∨ pyFoldMin a l ∈ l := by
  induction l generalizing a with
  | nil => exact Or.inl rfl
  | cons k ks ih =>
    rw [pyFoldMin_cons]
    by_cases hk : pyStrLt k a = true
    · rw [if_pos hk]
      rcases ih k with h | h
      · rw [h]; exact Or.inr (List.mem_cons_self k ks)
      · exact Or.inr (List.mem_cons_of_mem k h)
    · rw [if_neg hk]
      rcases ih a with h | h
      · exact Or.inl h
      · exact Or.inr (List.mem_cons_of_mem k h)

theorem pyMin_mem {l : List String} {m : String} (h : pyMin l = some m) :
    m ∈ l := by
  match l with
  | [] => cases h
  | x :: xs =>
    simp only [pyMin, Option.some.injEq] at h
    rcases pyFoldMin_mem x xs with h' | h'
    · rw [← h, h']; exact List.mem_cons_self x xs
    · rw [← h]; exact List.mem_cons_of_mem x h'

/-! ## Trim lemmas -/

theorem trimList_length_le (l : List CommandLogEntry) :
    (trimList l).length ≤ MAX_HISTORY_ENTRIES := by
  rw [trimList]
  split
  · rename_i h
    simp only [List.length_drop]
    omega
  · rename_i h
    omega

theorem trim_save_states_length_le {σ : Type} (c : SandboxController σ)
    (h : c.save_states.length ≤ MAX_SAVE_STATES + 1) :
    (c.trim_save_states).save_states.length ≤ MAX_SAVE_STATES := by
  rw [SandboxController.trim_save_states]
  split
  · rename_i hgt
    match hm : pyMin (c.save_states.map Prod.fst) with
    | some oldest =>
      simp only
      have := dictDel_length_lt (d := c.save_states) (k := oldest) (pyMin_mem hm)
      omega
    | none =>
      match hss : c.save_states, hm with
      | [], _ => simp [hss] at hgt
  · rename_i hgt
    omega

/-! ## Decimal numeral order: `pyStr` is order-preserving on numbers
with equally many digits, and order-scrambling otherwise. -/

theorem numDigitsAux_pos (f n : Nat) : 1 ≤ numDigitsAux f n := by
  cases f with
  | zero => exact le_refl 1
  | succ f =>
    rw [numDigitsAux]
    split
    · exact le_refl 1
    · omega

theorem numDigitsAux_lt (f : Nat) : ∀ n, n ≤ f → n < 10 ^ numDigitsAux f n := by
  induction f with
  | zero =>
    intro n hn
    have h0 : n = 0 := Nat.le_zero.mp hn
    subst h0
    decide
  | succ f ih =>
    intro n hn
    rw [numDigitsAux]
    split
    · rename_i h
      simpa using h
    · rename_i h
      push_neg at h
      have hdiv : n / 10 ≤ f := by
        have : n / 10 < n := Nat.div_lt_self (by omega) (by omega)
        omega
      have hq := ih (n / 10) hdiv
      have hmod := Nat.div_add_mod n 10
      have hm : n % 10 < 10 := Nat.mod_lt n (by omega)
      calc n < 10 * (n / 10) + 10 := by omega
        _ = 10 * (n / 10 + 1) := by ring
        _ ≤ 10 * 10 ^ numDigitsAux f (n / 10) :=
              Nat.mul_le_mul_left 10 (Nat.succ_le_of_lt hq)
        _ = 10 ^ (numDigitsAux f (n / 10) + 1) := by ring

theorem numDigits_lt (n : Nat) : n < 10 ^ numDigits n :=
  numDigitsAux_lt n n (le_refl n)

theorem numDigits_pos (n : Nat) : 1 ≤ numDigits n := numDigitsAux_pos n n

theorem padDigits_zero (n : Nat) : padDigits 0 n = [] := rfl

theorem padDigits_succ (L n : Nat) :
    padDigits (L + 1) n = (n / 10 ^ L % 10) :: padDigits L n := by
  simp [padDigits, List.range_succ]

theorem padDigits_length (L n : Nat) : (padDigits L n).length = L := by
  simp [padDigits]

theorem padDigits_lt10 (L n : Nat) : ∀ d ∈ padDigits L n, d < 10 := by
  intro d hd
  simp only [padDigits, List.mem_map] at hd
  obtain ⟨i, _, hi⟩ := hd
  rw [← hi]
  exact Nat.mod_lt _ (by omega)

theorem padDigits_mod (L n : Nat) : padDigits L (n % 10 ^ L) = padDigits L n := by
  apply List.map_congr_left
  intro i hi
  have hiL : i < L := by
    simpa using List.mem_reverse.mp hi
  have hsplit : (10:Nat) ^ L = 10 ^ i * 10 ^ (L - i) := by
    rw [← pow_add]
    congr 1
    omega
  have h1 : n % 10 ^ L / 10 ^ i = n / 10 ^ i % 10 ^ (L - i) := by
    rw [hsplit, Nat.mod_mul_right_div_self]
  rw [h1]
  have h2 : n / 10 ^ i % 10 ^ (L - i) % 10 = n / 10 ^ i % 10 := by
    apply Nat.mod_mod_of_dvd
    exact dvd_pow_self 10 (by omega)
  rw [h2]

theorem lex_inv_of_ne {α : Type} {r : α → α → Prop} {a b : α}
    {l₁ l₂ : List α} (hne : a ≠ b) :
    List.Lex r (a :: l₁) (b :: l₂) ↔ r a b := by
  constructor
  · intro h
    cases h with
    | cons h => exact absurd rfl hne
    | rel h => exact h
  · intro h
    exact List.Lex.rel h

theorem lex_padDigits (L : Nat) : ∀ a b : Nat, a < 10 ^ L → b < 10 ^ L →
    (List.Lex (· < ·) (padDigits L a) (padDigits L b) ↔ a < b) := by
  induction L with
  | zero =>
    intro a b ha hb
    simp only [pow_zero, Nat.lt_one_iff] at ha hb
    subst ha; subst hb
    simp only [padDigits_zero]
    constructor
    · intro h
      exact absurd h (List.Lex.not_nil_right _ _)
    · intro h
      exact absurd h (lt_irrefl 0)
  | succ L ih =>
    intro a b ha hb
    have hpow : (0:Nat) < 10 ^ L := pow_pos (by norm_num) L
    have hda : a / 10 ^ L < 10 := by
      rw [Nat.div_lt_iff_lt_mul hpow]
      calc a < 10 ^ (L + 1) := ha
        _ = 10 * 10 ^ L := by ring
    have hdb : b / 10 ^ L < 10 := by
      rw [Nat.div_lt_iff_lt_mul hpow]
      calc b < 10 ^ (L + 1) := hb
        _ = 10 * 10 ^ L := by ring
    rw [padDigits_succ, padDigits_succ,
      Nat.mod_eq_of_lt hda, Nat.mod_eq_of_lt hdb]
    have hsa := Nat.div_add_mod a (10 ^ L)
    have hsb := Nat.div_add_mod b (10 ^ L)
    have hra : a % 10 ^ L < 10 ^ L := Nat.mod_lt a hpow
    have hrb : b % 10 ^ L < 10 ^ L := Nat.mod_lt b hpow
    rcases Nat.lt_trichotomy (a / 10 ^ L) (b / 10 ^ L) with hlt | heq | hgt
    · apply iff_of_true (List.Lex.rel hlt)
      calc a = 10 ^ L * (a / 10 ^ L) + a % 10 ^ L := hsa.symm
        _ < 10 ^ L * (a / 10 ^ L) + 10 ^ L := Nat.add_lt_add_left hra _
        _ = 10 ^ L * (a / 10 ^ L + 1) := by ring
        _ ≤ 10 ^ L * (b / 10 ^ L) :=
              Nat.mul_le_mul_left _ (Nat.succ_le_of_lt hlt)
        _ ≤ 10 ^ L * (b / 10 ^ L) + b % 10 ^ L := Nat.le_add_right _ _
        _ = b := hsb
    · rw [heq, List.Lex.cons_iff, ← padDigits_mod L a, ← padDigits_mod L b,
        ih (a % 10 ^ L) (b % 10 ^ L) hra hrb]
      have hiff : 10 ^ L * (a / 10 ^ L) + a % 10 ^ L <
          10 ^ L * (b / 10 ^ L) + b % 10 ^ L ↔ a % 10 ^ L < b % 10 ^ L := by
        rw [heq]
        exact add_lt_add_iff_left _
      rw [hsa, hsb] at hiff
      exact hiff.symm
    · have hne : a / 10 ^ L ≠ b / 10 ^ L := Nat.ne_of_gt hgt
      rw [lex_inv_of_ne hne]
      have hba : b < a := by
        calc b = 10 ^ L * (b / 10 ^ L) + b % 10 ^ L := hsb.symm
          _ < 10 ^ L * (b / 10 ^ L) + 10 ^ L := Nat.add_lt_add_left hrb _
          _ = 10 ^ L * (b / 10 ^ L + 1) := by ring
          _ ≤ 10 ^ L * (a / 10 ^ L) :=
                Nat.mul_le_mul_left _ (Nat.succ_le_of_lt hgt)
          _ ≤ 10 ^ L * (a / 10 ^ L) + a % 10 ^ L := Nat.le_add_right _ _
          _ = a := hsa
      exact iff_of_false (Nat.lt_asymm hgt) (Nat.lt_asymm hba)

theorem digitChar_lt_iff : ∀ d₁, d₁ < 10 → ∀ d₂, d₂ < 10 →
    ((Nat.digitChar d₁ < Nat.digitChar d₂) ↔ d₁ < d₂) := by decide

theorem digitChar_eq_iff : ∀ d₁, d₁ < 10 → ∀ d₂, d₂ < 10 →
    ((Nat.digitChar d₁ = Nat.digitChar d₂) ↔ d₁ = d₂) := by decide

theorem lex_map_digitChar : ∀ l₁ l₂ : List Nat, (∀ d ∈ l₁, d < 10) →
    (∀ d ∈ l₂, d < 10) →
    (List.Lex (· < ·) (l₁.map Nat.digitChar) (l₂.map Nat.digitChar) ↔
      List.Lex (· < ·) l₁ l₂) := by
  intro l₁
  induction l₁ with
  | nil =>
    intro l₂ _ _
    cases l₂ with
    | nil =>
      apply iff_of_false <;> exact List.Lex.not_nil_right _ _
    | cons b bs =>
      apply iff_of_true <;> exact List.Lex.nil
  | cons a as ih =>
    intro l₂ h₁ h₂
    cases l₂ with
    | nil =>
      apply iff_of_false <;> exact List.Lex.not_nil_right _ _
    | cons b bs =>
      have ha : a < 10 := h₁ a (List.mem_cons_self a as)
      have hb : b < 10 := h₂ b (List.mem_cons_self b bs)
      by_cases hab : a = b
      · subst hab
        simp only [List.map_cons, List.Lex.cons_iff]
        exact ih bs (fun d hd => h₁ d (List.mem_cons_of_mem a hd))
          (fun d hd => h₂ d (List.mem_cons_of_mem a hd))
      · have hchar : Nat.digitChar a ≠ Nat.digitChar b := by
          intro he
          exact hab ((digitChar_eq_iff a ha b hb).mp he)
        simp only [List.map_cons]
        rw [lex_inv_of_ne hchar, lex_inv_of_ne hab]
        exact digitChar_lt_iff a ha b hb

theorem pyStr_toList (n : Nat) :
    (pyStr n).toList = (padDigits (numDigits n) n).map Nat.digitChar := rfl

theorem pyStr_lt_iff {a b : Nat} (h : numDigits a = numDigits b) :
    (pyStr a < pyStr b) ↔ a < b := by
  rw [String.lt_iff_toList_lt]
  have hmap := lex_map_digitChar (padDigits (numDigits a) a)
    (padDigits (numDigits b) b) (padDigits_lt10 _ _) (padDigits_lt10 _ _)
  have hpad : List.Lex (· < ·) (padDigits (numDigits a) a)
      (padDigits (numDigits b) b) ↔ a < b := by
    rw [← h]
    exact lex_padDigits (numDigits a) a b (numDigits_lt a)
      (by rw [h]; exact numDigits_lt b)
  exact hmap.trans hpad

theorem pyStr_ne_empty (n : Nat) : pyStr n ≠ "" := by
  intro h
  have h1 : (pyStr n).toList = ("" : String).toList := by rw [h]
  rw [pyStr_toList] at h1
  have h2 : ((padDigits (numDigits n) n).map Nat.digitChar).length = 0 := by
    rw [h1]; rfl
  rw [List.length_map, padDigits_length] at h2
  have := numDigits_pos n
  omega

/-! ## Dispatch-level preservation lemmas -/

theorem start_simulation_eq {σ : Type} (c : SandboxController σ)
    (p : Option Params) (t : Nat) :
    c.start_simulation p t =
      if c.simulation.state ≠ SimulationState.INITIALIZING then
        (c, .ok { success := false, reason := some "Simulation already started" })
      else
        ({ c with
            simulation := { c.simulation with state := SimulationState.RUNNING },
            last_update := t },
         .ok { success := true,
               simulation_id := some c.simulation.simulation_id,
               start_time := some t }) := by
  by_cases h : c.simulation.state ≠ SimulationState.INITIALIZING
  · simp only [SandboxController.start_simulation]
    rw [if_pos h, if_pos h]
  · simp only [SandboxController.start_simulation]
    rw [if_neg h, if_neg h]
    cases p with
    | none => rfl
    | some p' =>
      simp only [SandboxController.apply_simulation_params, ite_self]

theorem dispatch_command_history {σ : Type} (c : SandboxController σ)
    (cmd : ControlCommand) (p : Option Params) (t : Nat) :
    ((c.dispatch cmd p t).1).command_history = c.command_history := by
  cases cmd <;>
    simp only [SandboxController.dispatch, start_simulation_eq,
      SandboxController.pause_simulation, SandboxController.resume_simulation,
      SandboxController.stop_simulation, SandboxController.reset_simulation,
      SandboxController.save_state, SandboxController.load_state,
      SandboxController.trim_save_states] <;>
    (repeat' split) <;> rfl

theorem dispatch_error_count {σ : Type} (c : SandboxController σ)
    (cmd : ControlCommand) (p : Option Params) (t : Nat) :
    ((c.dispatch cmd p t).1).error_count = c.error_count := by
  cases cmd <;>
    simp only [SandboxController.dispatch, start_simulation_eq,
      SandboxController.pause_simulation, SandboxController.resume_simulation,
      SandboxController.stop_simulation, SandboxController.reset_simulation,
      SandboxController.save_state, SandboxController.load_state,
      SandboxController.trim_save_states] <;>
    (repeat' split) <;> rfl

theorem dispatch_is_processing {σ : Type} (c : SandboxController σ)
    (cmd : ControlCommand) (p : Option Params) (t : Nat) :
    ((c.dispatch cmd p t).1).is_processing = c.is_processing := by
  cases cmd <;>
    simp only [SandboxController.dispatch, start_simulation_eq,
      SandboxController.pause_simulation, SandboxController.resume_simulation,
      SandboxController.stop_simulation, SandboxController.reset_simulation,
      SandboxController.save_state, SandboxController.load_state,
      SandboxController.trim_save_states] <;>
    (repeat' split) <;> rfl

theorem dispatch_save_states_bound {σ : Type} (c : SandboxController σ)
    (cmd : ControlCommand) (p : Option Params) (t : Nat)
    (h : c.save_states.length ≤ MAX_SAVE_STATES) :
    ((c.dispatch cmd p t).1).save_states.length ≤ MAX_SAVE_STATES := by
  cases cmd
  case SAVE =>
    simp only [SandboxController.dispatch, SandboxController.save_state]
    apply trim_save_states_length_le
    simp only
    calc (dictSet c.save_states (pyStr t) c.simulation.get_state).length
        ≤ c.save_states.length + 1 := dictSet_length_le _ _ _
      _ ≤ MAX_SAVE_STATES + 1 := by omega
  all_goals
    simp only [SandboxController.dispatch, start_simulation_eq,
      SandboxController.pause_simulation, SandboxController.resume_simulation,
      SandboxController.stop_simulation, SandboxController.reset_simulation,
      SandboxController.load_state] <;>
    (repeat' split) <;> exact h

theorem dispatch_error_state {σ : Type} (c : SandboxController σ)
    (cmd : ControlCommand) (p : Option Params) (t : Nat)
    (herr : c.simulation.state = SimulationState.ERROR)
    (hcmd : cmd ≠ ControlCommand.RESET) :
    ((c.dispatch cmd p t).1).simulation.state = SimulationState.ERROR := by
  cases cmd
  case RESET => exact absurd rfl hcmd
  case START =>
    simp only [SandboxController.dispatch, start_simulation_eq]
    rw [if_pos (by rw [herr]; simp)]
    exact herr
  case PAUSE =>
    simp only [SandboxController.dispatch, SandboxController.pause_simulation]
    rw [if_neg (by rw [herr]; simp)]
    exact herr
  case RESUME =>
    simp only [SandboxController.dispatch, SandboxController.resume_simulation]
    rw [if_neg (by rw [herr]; simp)]
    exact herr
  case STOP =>
    simp only [SandboxController.dispatch, SandboxController.stop_simulation]
    rw [if_neg (by rw [herr]; simp)]
    exact herr
  case SAVE =>
    simp only [SandboxController.dispatch, SandboxController.save_state,
      SandboxController.trim_save_states]
    (repeat' split) <;> exact herr
  case LOAD =>
    simp only [SandboxController.dispatch, SandboxController.load_state,
      SandboxSimulation.set_state]
    (repeat' split) <;> exact herr

theorem runSteps_append_error (pre : List (String × Except String Unit))
    (n e : String) (post : List (String × Except String Unit))
    (h : ∀ s ∈ pre, s.2 = Except.ok ()) :
    runSteps (pre ++ (n, Except.error e) :: post) =
      (pre.map Prod.fst ++ [n], some e) := by
  induction pre with
  | nil => rfl
  | cons s rest ih =>
    obtain ⟨nm, ex⟩ := s
    have hs : ex = Except.ok () := h (nm, ex) (List.mem_cons_self _ _)
    subst hs
    simp only [List.cons_append, runSteps, List.append_eq,
      ih (fun x hx => h x (List.mem_cons_of_mem _ hx)), List.map_cons]

/-! ## Claim C10 -/

/-- Claim C10: whenever `SandboxSimulation.update(delta_time)` returns a
failure result — because the state is not `Running` or because a
subsystem raised mid-tick — `current_time` is unchanged; the clock
advances (by the scaled delta) only on a successful tick. -/
theorem claim_c10_clock_frame {σ : Type} (sim : SandboxSimulation σ)
    (o : TickOracle) (d : ℚ) :
    ((sim.update o d).2.1.success = false →
      (sim.update o d).1.current_time = sim.current_time) ∧
    ((sim.update o d).2.1.success = true →
      (sim.update o d).1.current_time = sim.current_time + d * sim.time_scale) := by
  by_cases hst : sim.state = SimulationState.RUNNING
  · rcases hrun : runSteps o.steps with ⟨inv, err⟩
    cases err with
    | some e =>
      constructor
      · intro _
        simp [SandboxSimulation.update, hst, hrun]
      · intro hsucc
        simp [SandboxSimulation.update, hst, hrun] at hsucc
    | none =>
      constructor
      · intro hfail
        simp [SandboxSimulation.update, hst, hrun] at hfail
      · intro _
        simp [SandboxSimulation.update, hst, hrun]
  · constructor
    · intro _
      simp only [SandboxSimulation.update]
      rw [if_pos hst]
    · intro hsucc
      simp only [SandboxSimulation.update] at hsucc
      rw [if_pos hst] at hsucc
      simp at hsucc

/-- Witness for C10 at concrete inputs: a paused simulation's failed
tick leaves the clock at `5`; a successful tick advances it by
`3 * 2`. -/
theorem claim_c10_witness :
    (wSimPaused.update okOracle 3).2.1.success = false ∧
    (wSimPaused.update okOracle 3).1.current_time = wSimPaused.current_time ∧
    (wSimRun.update okOracle 3).2.1.success = true ∧
    (wSimRun.update okOracle 3).1.current_time =
      wSimRun.current_time + 3 * wSimRun.time_scale :=
  ⟨by decide, (claim_c10_clock_frame wSimPaused okOracle 3).1 (by decide),
   by decide, (claim_c10_clock_frame wSimRun okOracle 3).2 (by decide)⟩

/-! ## Claim C9 -/

/-- Claim C9: `execute_command` never propagates an exception: for every
command and parameter value it returns a result pair; when the
dispatched handler raises `e`, the exception is caught, the error
counter is incremented by one, and a failure result carrying the reason
is returned; when the handler returns, its result is returned. -/
theorem claim_c9_exception_containment {σ : Type} (c : SandboxController σ)
    (cmd : ControlCommand) (p : Option Params) (t : Nat)
    (hproc : c.is_processing = false) :
    (∀ c₂ e,
      ({ c with is_processing := true } : SandboxController σ).dispatch cmd p t =
        (c₂, Except.error e) →
      c.execute_command cmd p t =
        ({ c₂ with error_count := c₂.error_count + 1, is_processing := false },
         { success := false, command := some cmd.value, reason := some e }) ∧
      c₂.error_count = c.error_count) ∧
    (∀ c₂ r,
      ({ c with is_processing := true } : SandboxController σ).dispatch cmd p t =
        (c₂, Except.ok r) →
      (c.execute_command cmd p t).2 = r) := by
  have hnb : ¬ (c.is_processing = true) := by simp [hproc]
  constructor
  · intro c₂ e heq
    constructor
    · simp only [SandboxController.execute_command]
      rw [if_neg hnb, heq]
    · have h := dispatch_error_count ({ c with is_processing := true })
        cmd p t
      rw [heq] at h
      exact h
  · intro c₂ r heq
    simp only [SandboxController.execute_command]
    rw [if_neg hnb, heq]

/-- Witness for C9: `Load` with `params = None` raises inside the
handler; the call still returns a failure result and bumps the error
counter. -/
theorem claim_c9_witness :
    (wCtrl.execute_command ControlCommand.LOAD none 7).2 =
      { success := false, command := some "load",
        reason := some "AttributeError: NoneType object has no attribute get" } ∧
    (wCtrl.execute_command ControlCommand.LOAD none 7).1.error_count =
      wCtrl.error_count + 1 := by
  have h := (claim_c9_exception_containment wCtrl ControlCommand.LOAD none 7 rfl).1
    { wCtrl with is_processing := true }
    "AttributeError: NoneType object has no attribute get" rfl
  constructor
  · rw [h.1]
    rfl
  · rw [h.1]

/-! ## Claim C2 -/

/-- Claim C2 (amended): a call to `execute_command` whose dispatched
handler returns normally appends exactly one `CommandLogEntry`
`{timestamp, command, params, result}` (then trims); a call whose
handler raises appends nothing, though it still returns a failure
result. -/
theorem claim_c2_logging {σ : Type} (c : SandboxController σ)
    (cmd : ControlCommand) (p : Option Params) (t : Nat)
    (hproc : c.is_processing = false) :
    (∀ c₂ r,
      ({ c with is_processing := true } : SandboxController σ).dispatch cmd p t =
        (c₂, Except.ok r) →
      (c.execute_command cmd p t).1.command_history =
        trimList (c.command_history ++
          [{ timestamp := t, command := cmd.value, params := p, result := r }])) ∧
    (∀ c₂ e,
      ({ c with is_processing := true } : SandboxController σ).dispatch cmd p t =
        (c₂, Except.error e) →
      (c.execute_command cmd p t).1.command_history = c.command_history ∧
      (c.execute_command cmd p t).2.success = false) := by
  have hnb : ¬ (c.is_processing = true) := by simp [hproc]
  constructor
  · intro c₂ r heq
    have hch := dispatch_command_history ({ c with is_processing := true })
      cmd p t
    rw [heq] at hch
    simp only [SandboxController.execute_command]
    rw [if_neg hnb, heq]
    simp only [SandboxController.log_command, SandboxController.trim_history]
    rw [hch]
  · intro c₂ e heq
    have hch := dispatch_command_history ({ c with is_processing := true })
      cmd p t
    rw [heq] at hch
    constructor
    · simp only [SandboxController.execute_command]
      rw [if_neg hnb, heq]
      exact hch
    · simp only [SandboxController.execute_command]
      rw [if_neg hnb, heq]

/-- Witness for C2: a `Save` call on a fresh controller appends exactly
one history entry. -/
theorem claim_c2_witness :
    (wCtrl.execute_command ControlCommand.SAVE none 5).1.command_history.length = 1 := by
  have h := (claim_c2_logging wCtrl ControlCommand.SAVE none 5 rfl).1 _ _ rfl
  rw [h]
  rfl

/-- Counterexample to C2 as stated: `execute_command(LOAD, None)` returns
a failure (its handler raised before `_log_command` ran), yet appends NO
`CommandLogEntry` — the history stays empty. -/
theorem claim_c2_counterexample :
    (wCtrl.execute_command ControlCommand.LOAD none 7).1.command_history = [] ∧
    (wCtrl.execute_command ControlCommand.LOAD none 7).2.success = false ∧
    (wCtrl.execute_command ControlCommand.LOAD none 7).1.error_count = 1 :=
  ⟨rfl, rfl, rfl⟩

/-! ## Claim C3 -/

/-- Claim C3: `update(delta_time)` returns a "not running" failure
whenever the state is not `Running`; if a subsystem step raises
mid-tick, the simulation transitions to `Error`, the remaining steps of
that tick are never invoked, and the failure is returned; afterwards
every `update` fails and every control command other than `Reset`
leaves the state `Error`, while `Reset` restores `Initializing` and a
subsequent `Start` succeeds. -/
theorem claim_c3_error_handling {σ : Type} :
    (∀ (sim : SandboxSimulation σ) (o : TickOracle) (d : ℚ),
      sim.state ≠ SimulationState.RUNNING →
      sim.update o d = (sim,
        { success := false,
          reason := some ("Simulation not running: " ++ sim.state.pyShow) },
        [])) ∧
    (∀ (sim : SandboxSimulation σ) (o : TickOracle) (d : ℚ)
       (pre post : List (String × Except String Unit)) (n e : String),
      sim.state = SimulationState.RUNNING →
      o.steps = pre ++ (n, Except.error e) :: post →
      (∀ s ∈ pre, s.2 = Except.ok ()) →
      sim.update o d = ({ sim with state := SimulationState.ERROR },
        { success := false, reason := some e }, pre.map Prod.fst ++ [n])) ∧
    (∀ (sim : SandboxSimulation σ) (o : TickOracle) (d : ℚ),
      sim.state = SimulationState.ERROR →
      (sim.update o d).2.1.success = false ∧ (sim.update o d).1 = sim) ∧
    (∀ (c : SandboxController σ) (cmd : ControlCommand) (p : Option Params)
       (t : Nat),
      c.simulation.state = SimulationState.ERROR →
      cmd ≠ ControlCommand.RESET →
      ((c.execute_command cmd p t).1).simulation.state = SimulationState.ERROR) ∧
    (∀ (c : SandboxController σ) (p₁ : Option Params) (t₁ t₂ : Nat),
      c.simulation.state = SimulationState.ERROR → c.is_processing = false →
      (c.execute_command ControlCommand.RESET p₁ t₁).2.success = true ∧
      ((c.execute_command ControlCommand.RESET p₁ t₁).1).simulation.state =
        SimulationState.INITIALIZING ∧
      (((c.execute_command ControlCommand.RESET p₁ t₁).1).execute_command
        ControlCommand.START none t₂).2.success = true) := by
  refine ⟨?_, ?_, ?_, ?_, ?_⟩
  · intro sim o d h
    simp only [SandboxSimulation.update]
    rw [if_pos h]
  · intro sim o d pre post n e hst ho hpre
    simp only [SandboxSimulation.update]
    rw [if_neg (by rw [hst]; simp), ho, runSteps_append_error pre n e post hpre]
  · intro sim o d herr
    constructor
    · simp only [SandboxSimulation.update]
      rw [if_pos (by rw [herr]; simp)]
    · simp only [SandboxSimulation.update]
      rw [if_pos (by rw [herr]; simp)]
  · intro c cmd p t herr hcmd
    by_cases hbusy : c.is_processing = true
    · simp only [SandboxController.execute_command]
      rw [if_pos hbusy]
      exact herr
    · have hd := dispatch_error_state ({ c with is_processing := true })
        cmd p t herr hcmd
      rcases hdisp : ({ c with is_processing := true } :
          SandboxController σ).dispatch cmd p t with ⟨c₂, exc⟩
      rw [hdisp] at hd
      cases exc with
      | ok r =>
        simp only [SandboxController.execute_command]
        rw [if_neg hbusy, hdisp]
        exact hd
      | error e =>
        simp only [SandboxController.execute_command]
        rw [if_neg hbusy, hdisp]
        exact hd
  · intro c p₁ t₁ t₂ herr hproc
    have hnb : ¬ (c.is_processing = true) := by simp [hproc]
    have h₂ : ((c.execute_command ControlCommand.RESET p₁ t₁).1).simulation.state =
        SimulationState.INITIALIZING := by
      simp only [SandboxController.execute_command]
      rw [if_neg hnb]
      rfl
    have h₃ : ((c.execute_command ControlCommand.RESET p₁ t₁).1).is_processing =
        false := by
      simp only [SandboxController.execute_command]
      rw [if_neg hnb]
      rfl
    refine ⟨?_, h₂, ?_⟩
    · simp only [SandboxController.execute_command]
      rw [if_neg hnb]
      rfl
    · rcases hres : c.execute_command ControlCommand.RESET p₁ t₁ with ⟨c₃, r₃⟩
      have hst3 : c₃.simulation.state = SimulationState.INITIALIZING := by
        have h := h₂
        rw [hres] at h
        exact h
      have hpr3 : c₃.is_processing = false := by
        have h := h₃
        rw [hres] at h
        exact h
      show (c₃.execute_command ControlCommand.START none t₂).2.success = true
      have hd : ({ c₃ with is_processing := true } :
          SandboxController σ).dispatch ControlCommand.START none t₂ =
          ({ c₃ with
              is_processing := true,
              simulation := { c₃.simulation with state := SimulationState.RUNNING },
              last_update := t₂ },
           Except.ok
             { success := true,
               simulation_id := some c₃.simulation.simulation_id,
               start_time := some t₂ }) := by
        show ({ c₃ with is_processing := true } :
          SandboxController σ).start_simulation none t₂ = _
        rw [start_simulation_eq, if_neg (by simp [hst3])]
      simp only [SandboxController.execute_command]
      rw [if_neg (by simp [hpr3]), hd]

/-- Witness for C3: a paused tick is rejected; a physics failure leaves
the scheduler in `Error` having invoked only the steps up to physics;
an `Error`-state controller stays in `Error` under `Save` but recovers
through `Reset` then `Start`. -/
theorem claim_c3_witness :
    wSimPaused.update okOracle 1 =
      (wSimPaused,
       { success := false,
         reason := some "Simulation not running: SimulationState.PAUSED" }, []) ∧
    wSimRun.update badOracle 3 =
      ({ wSimRun with state := SimulationState.ERROR },
       { success := false, reason := some "RuntimeError: physics exploded" },
       ["pre_update", "environment", "physics"]) ∧
    ((wSimRun.update badOracle 3).1.update okOracle 1).2.1.success = false ∧
    ((wCtrlErr.execute_command ControlCommand.SAVE none 3).1).simulation.state =
      SimulationState.ERROR ∧
    (wCtrlErr.execute_command ControlCommand.RESET none 4).2.success = true ∧
    (((wCtrlErr.execute_command ControlCommand.RESET none 4).1).execute_command
      ControlCommand.START none 5).2.success = true := by
  have h := claim_c3_error_handling (σ := Nat)
  refine ⟨?_, ?_, ?_, ?_, ?_, ?_⟩
  · exact h.1 wSimPaused okOracle 1 (by decide)
  · have h2 := h.2.1 wSimRun badOracle 3
      [("pre_update", Except.ok ()), ("environment", Except.ok ())]
      [("update_agents", Except.ok ()), ("resolve_combat", Except.ok ()),
       ("update_social", Except.ok ()), ("update_factions", Except.ok ()),
       ("post_update", Except.ok ()), ("collect_events", Except.ok ()),
       ("update_metrics", Except.ok ())]
      "physics" "RuntimeError: physics exploded" rfl rfl (by simp)
    exact h2
  · exact (h.2.2.1 (wSimRun.update badOracle 3).1 okOracle 1 (by decide)).1
  · exact h.2.2.2.1 wCtrlErr ControlCommand.SAVE none 3 rfl (by decide)
  · exact (h.2.2.2.2 wCtrlErr none 4 5 rfl rfl).1
  · exact (h.2.2.2.2 wCtrlErr none 4 5 rfl rfl).2.2

/-! ## Claim C5 -/

theorem exec_start_eq {σ : Type} (c : SandboxController σ) (p : Option Params)
    (t : Nat) (hproc : c.is_processing = false) :
    (c.execute_command ControlCommand.START p t).2 =
      (if c.simulation.state ≠ SimulationState.INITIALIZING then
        { success := false, reason := some "Simulation already started" }
      else
        { success := true, simulation_id := some c.simulation.simulation_id,
          start_time := some t }) ∧
    ((c.execute_command ControlCommand.START p t).1).simulation.state =
      (if c.simulation.state ≠ SimulationState.INITIALIZING then
        c.simulation.state
      else SimulationState.RUNNING) ∧
    ((c.execute_command ControlCommand.START p t).1).is_processing = false := by
  have hnb : ¬ (c.is_processing = true) := by simp [hproc]
  by_cases hst : c.simulation.state = SimulationState.INITIALIZING
  · have hd : ({ c with is_processing := true } :
        SandboxController σ).dispatch ControlCommand.START p t =
        ({ c with
            is_processing := true,
            simulation := { c.simulation with state := SimulationState.RUNNING },
            last_update := t },
         Except.ok
           { success := true,
             simulation_id := some c.simulation.simulation_id,
             start_time := some t }) := by
      show ({ c with is_processing := true } :
        SandboxController σ).start_simulation p t = _
      rw [start_simulation_eq, if_neg (by simp [hst])]
    rw [if_neg (by simp [hst]), if_neg (by simp [hst])]
    refine ⟨?_, ?_, ?_⟩ <;>
      (simp only [SandboxController.execute_command]
       rw [if_neg hnb, hd]
       try rfl)
  · have hd : ({ c with is_processing := true } :
        SandboxController σ).dispatch ControlCommand.START p t =
        ({ c with is_processing := true },
         Except.ok
           { success := false, reason := some "Simulation already started" }) := by
      show ({ c with is_processing := true } :
        SandboxController σ).start_simulation p t = _
      rw [start_simulation_eq, if_pos (by simp [hst])]
    rw [if_pos (by simp [hst]), if_pos (by simp [hst])]
    refine ⟨?_, ?_, ?_⟩ <;>
      (simp only [SandboxController.execute_command]
       rw [if_neg hnb, hd]
       try rfl)

/-- Claim C5 (amended): `Start` succeeds — returning the simulation id
and start time, with the state becoming `Running` — if and only if the
state is `Initializing`; issuing `Start` twice makes the first call
succeed and the second fail with reason `'Simulation already started'`
(the source's literal reason string). -/
theorem claim_c5_start_gating {σ : Type} :
    (∀ (c : SandboxController σ) (p : Option Params) (t : Nat),
      c.is_processing = false →
      ((c.execute_command ControlCommand.START p t).2.success = true ↔
        c.simulation.state = SimulationState.INITIALIZING)) ∧
    (∀ (c : SandboxController σ) (p : Option Params) (t : Nat),
      c.is_processing = false →
      c.simulation.state = SimulationState.INITIALIZING →
      (c.execute_command ControlCommand.START p t).2 =
        { success := true, simulation_id := some c.simulation.simulation_id,
          start_time := some t } ∧
      ((c.execute_command ControlCommand.START p t).1).simulation.state =
        SimulationState.RUNNING) ∧
    (∀ (c : SandboxController σ) (p₁ p₂ : Option Params) (t₁ t₂ : Nat),
      c.is_processing = false →
      c.simulation.state = SimulationState.INITIALIZING →
      (((c.execute_command ControlCommand.START p₁ t₁).1).execute_command
        ControlCommand.START p₂ t₂).2 =
        { success := false, reason := some "Simulation already started" }) := by
  refine ⟨?_, ?_, ?_⟩
  · intro c p t hproc
    obtain ⟨h1, _, _⟩ := exec_start_eq c p t hproc
    by_cases hst : c.simulation.state = SimulationState.INITIALIZING
    · rw [if_neg (by simp [hst])] at h1
      rw [h1]
      simpa using hst
    · rw [if_pos (by simp [hst])] at h1
      rw [h1]
      simpa using hst
  · intro c p t hproc hst
    obtain ⟨h1, h2, _⟩ := exec_start_eq c p t hproc
    rw [if_neg (by simp [hst])] at h1
    rw [if_neg (by simp [hst])] at h2
    exact ⟨h1, h2⟩
  · intro c p₁ p₂ t₁ t₂ hproc hst
    obtain ⟨_, h2, h3⟩ := exec_start_eq c p₁ t₁ hproc
    rw [if_neg (by simp [hst])] at h2
    obtain ⟨h1', _, _⟩ :=
      exec_start_eq ((c.execute_command ControlCommand.START p₁ t₁).1) p₂ t₂ h3
    rw [if_pos (by simp [h2])] at h1'
    exact h1'

/-- Witness for C5: on a fresh controller the first `Start` succeeds,
the second fails with the source's reason; on a running controller
`Start` does not succeed. -/
theorem claim_c5_witness :
    (wCtrl.execute_command ControlCommand.START none 1).2.success = true ∧
    (((wCtrl.execute_command ControlCommand.START none 1).1).execute_command
      ControlCommand.START none 2).2 =
      { success := false, reason := some "Simulation already started" } ∧
    (wCtrlRun.execute_command ControlCommand.START none 1).2.success = false := by
  refine ⟨?_, ?_, ?_⟩
  · exact ((claim_c5_start_gating (σ := Nat)).1 wCtrl none 1 rfl).mpr rfl
  · exact (claim_c5_start_gating (σ := Nat)).2.2 wCtrl none none 1 2 rfl rfl
  · have h := (claim_c5_start_gating (σ := Nat)).1 wCtrlRun none 1 rfl
    rcases hb : (wCtrlRun.execute_command ControlCommand.START none 1).2.success with _ | _
    · rfl
    · have := h.mp hb
      exact absurd this (by decide)

/-- Counterexample to C5 as stated: the second `Start`'s failure reason
is the literal string `'Simulation already started'`, not
`"already started"`. -/
theorem claim_c5_counterexample :
    (((wCtrl.execute_command ControlCommand.START none 1).1).execute_command
      ControlCommand.START none 2).2.reason = some "Simulation already started" ∧
    (((wCtrl.execute_command ControlCommand.START none 1).1).execute_command
      ControlCommand.START none 2).2.reason ≠ some "already started" :=
  ⟨rfl, by decide⟩

/-! ## Claim C1 -/

theorem exec_preserves_bounds {σ : Type} (c : SandboxController σ)
    (cmd : ControlCommand) (p : Option Params) (t : Nat)
    (h1 : c.command_history.length ≤ MAX_HISTORY_ENTRIES)
    (h2 : c.save_states.length ≤ MAX_SAVE_STATES) :
    ((c.execute_command cmd p t).1).command_history.length ≤ MAX_HISTORY_ENTRIES ∧
    ((c.execute_command cmd p t).1).save_states.length ≤ MAX_SAVE_STATES := by
  by_cases hbusy : c.is_processing = true
  · simp only [SandboxController.execute_command]
    rw [if_pos hbusy]
    exact ⟨h1, h2⟩
  · rcases hdisp : ({ c with is_processing := true } :
        SandboxController σ).dispatch cmd p t with ⟨c₂, exc⟩
    have hsv := dispatch_save_states_bound ({ c with is_processing := true })
      cmd p t h2
    rw [hdisp] at hsv
    have hch := dispatch_command_history ({ c with is_processing := true })
      cmd p t
    rw [hdisp] at hch
    cases exc with
    | ok r =>
      constructor
      · simp only [SandboxController.execute_command]
        rw [if_neg hbusy, hdisp]
        simp only [SandboxController.log_command, SandboxController.trim_history]
        exact trimList_length_le _
      · simp only [SandboxController.execute_command]
        rw [if_neg hbusy, hdisp]
        simp only [SandboxController.log_command, SandboxController.trim_history]
        exact hsv
    | error e =>
      constructor
      · simp only [SandboxController.execute_command]
        rw [if_neg hbusy, hdisp]
        simp only
        rw [hch]
        exact h1
      · simp only [SandboxController.execute_command]
        rw [if_neg hbusy, hdisp]
        exact hsv

/-- Claim C1: after every prefix of any sequence of `execute_command`
calls on a freshly initialised controller, the command history holds at
most `MAX_HISTORY_ENTRIES` (1000) entries and the snapshot store at
most `MAX_SAVE_STATES` (10) records. -/
theorem claim_c1_bounded_collections {σ : Type} (sim0 : SandboxSimulation σ)
    (t0 : Nat) (ops : List (ControlCommand × Option Params × Nat)) :
    ((SandboxController.init sim0 t0).execSeq ops).command_history.length ≤
      MAX_HISTORY_ENTRIES ∧
    ((SandboxController.init sim0 t0).execSeq ops).save_states.length ≤
      MAX_SAVE_STATES := by
  suffices h : ∀ (c : SandboxController σ),
      c.command_history.length ≤ MAX_HISTORY_ENTRIES →
      c.save_states.length ≤ MAX_SAVE_STATES →
      (c.execSeq ops).command_history.length ≤ MAX_HISTORY_ENTRIES ∧
      (c.execSeq ops).save_states.length ≤ MAX_SAVE_STATES by
    exact h _ (by simp [SandboxController.init, MAX_HISTORY_ENTRIES])
      (by simp [SandboxController.init, MAX_SAVE_STATES])
  induction ops with
  | nil => exact fun c hc hs => ⟨hc, hs⟩
  | cons op rest ih =>
    intro c hc hs
    have hstep := exec_preserves_bounds c op.1 op.2.1 op.2.2 hc hs
    exact ih _ hstep.1 hstep.2

/-! ## Claim C7 -/

theorem register_agent_eq (ai : AgentInterface) {id : String} (hid : id ≠ "")
    (now : Nat) :
    ai.register_agent { id := some id } now =
      (if ai.registered_agents.length ≥ MAX_CONNECTIONS then
        (ai, { success := false, reason := some "Maximum connections reached" })
      else if dictMem ai.registered_agents id then
        (ai, { success := false, reason := some "Agent already registered" })
      else
        ({ ai with
            registered_agents :=
              dictSet ai.registered_agents id { id := some id },
            agent_states :=
              dictSet ai.agent_states id AgentState.INITIALIZING },
         { success := true, agent_id := some id, timestamp := some now })) := by
  rw [AgentInterface.register_agent,
    if_neg (by simp [optFalsy, hid] :
      ¬ (optFalsy (AgentData.mk (some id)).id = true))]

theorem uid_injective : Function.Injective uid := by
  intro i j h
  have hlen : (uid i).toList.length = (uid j).toList.length := by rw [h]
  simpa [uid] using hlen

theorem uid_ne_empty (i : Nat) : uid i ≠ "" := by
  intro h
  have hlen : (uid i).toList.length = ("" : String).toList.length := by rw [h]
  simp [uid] at hlen

theorem wIds_nodup : wIds.Nodup :=
  (List.nodup_range MAX_CONNECTIONS).map uid_injective

theorem wIds_ne_empty : ∀ s ∈ wIds, s ≠ "" := by
  intro s hs
  obtain ⟨i, _, hi⟩ := List.mem_map.mp hs
  rw [← hi]
  exact uid_ne_empty i

theorem regSeq_spec (ids : List String) : ∀ (ai : AgentInterface) (now : Nat),
    ids.Nodup → (∀ s ∈ ids, s ≠ "") →
    (∀ s ∈ ids, s ∉ ai.registered_agents.map Prod.fst) →
    ai.registered_agents.length + ids.length ≤ MAX_CONNECTIONS →
    (regSeq ai ids now).1.registered_agents.map Prod.fst =
      ai.registered_agents.map Prod.fst ++ ids ∧
    ∀ r ∈ (regSeq ai ids now).2, r.success = true := by
  induction ids with
  | nil =>
    intro ai now _ _ _ _
    exact ⟨by simp [regSeq], by simp [regSeq]⟩
  | cons id rest ih =>
    intro ai now hnd hval hfresh hlen
    have hid : id ≠ "" := hval id (List.mem_cons_self _ _)
    have hnotmem : id ∉ ai.registered_agents.map Prod.fst :=
      hfresh id (List.mem_cons_self _ _)
    have hmemF : dictMem ai.registered_agents id = false := by
      cases hb : dictMem ai.registered_agents id
      · rfl
      · exact absurd ((dictMem_iff _ _).mp hb) hnotmem
    have hlt : ¬ (ai.registered_agents.length ≥ MAX_CONNECTIONS) := by
      simp only [List.length_cons] at hlen
      omega
    have hreg : ai.register_agent { id := some id } now =
        ({ ai with
            registered_agents :=
              dictSet ai.registered_agents id { id := some id },
            agent_states :=
              dictSet ai.agent_states id AgentState.INITIALIZING },
         { success := true, agent_id := some id, timestamp := some now }) := by
      rw [register_agent_eq ai hid now, if_neg hlt, if_neg (by simp [hmemF])]
    have hset : dictSet ai.registered_agents id { id := some id } =
        ai.registered_agents ++ [(id, { id := some id })] :=
      dictSet_of_not_mem hnotmem _
    have ihres := ih
      ({ ai with
          registered_agents := dictSet ai.registered_agents id { id := some id },
          agent_states := dictSet ai.agent_states id AgentState.INITIALIZING })
      now hnd.of_cons
      (fun s hs => hval s (List.mem_cons_of_mem _ hs))
      (by
        intro s hs
        simp only [hset, List.map_append, List.map_cons, List.map_nil,
          List.mem_append, List.mem_cons]
        rintro (hmem | hs1)
        · exact hfresh s (List.mem_cons_of_mem _ hs) hmem
        · rcases hs1 with he | hf
          · rcases List.nodup_cons.mp hnd with ⟨hnotin, _⟩
            exact hnotin (he ▸ hs)
          · cases hf)
      (by
        simp only [hset, List.length_append, List.length_cons,
          List.length_nil] at *
        omega)
    constructor
    · show (regSeq ai (id :: rest) now).1.registered_agents.map Prod.fst = _
      simp only [regSeq, hreg]
      rw [ihres.1, hset]
      simp
    · intro r hr
      simp only [regSeq, hreg, List.mem_cons] at hr
      rcases hr with he | hm
      · rw [he]
      · exact ihres.2 r hm

/-- Claim C7 (amended): `register_agent` fails with "No agent ID
provided" on a missing (or empty, which Python treats as falsy) id;
fails with "Maximum connections reached" whenever the registered count
is at `MAX_CONNECTIONS` — this capacity check precedes the duplicate
check, so it fires even for an already-registered id; fails with "Agent
already registered" (creating no duplicate) when the id is registered
and the count is below the limit; otherwise stores the descriptor, sets
the agent's state to `Initializing`, and returns the id and a
timestamp.  With `MAX_CONNECTIONS = 1000`, registering 1000 distinct
agents succeeds and a 1001st registration fails. -/
theorem claim_c7_register_agent :
    (∀ (ai : AgentInterface) (d : AgentData) (now : Nat),
      optFalsy d.id = true →
      ai.register_agent d now =
        (ai, { success := false, reason := some "No agent ID provided" })) ∧
    (∀ (ai : AgentInterface) (id : String) (now : Nat), id ≠ "" →
      ai.registered_agents.length ≥ MAX_CONNECTIONS →
      ai.register_agent { id := some id } now =
        (ai, { success := false, reason := some "Maximum connections reached" })) ∧
    (∀ (ai : AgentInterface) (id : String) (now : Nat), id ≠ "" →
      ai.registered_agents.length < MAX_CONNECTIONS →
      dictMem ai.registered_agents id = true →
      ai.register_agent { id := some id } now =
        (ai, { success := false, reason := some "Agent already registered" })) ∧
    (∀ (ai : AgentInterface) (id : String) (now : Nat), id ≠ "" →
      ai.registered_agents.length < MAX_CONNECTIONS →
      dictMem ai.registered_agents id = false →
      ((ai.register_agent { id := some id } now).1).registered_agents =
        ai.registered_agents ++ [(id, { id := some id })] ∧
      dictGet ((ai.register_agent { id := some id } now).1).agent_states id =
        some AgentState.INITIALIZING ∧
      (ai.register_agent { id := some id } now).2 =
        { success := true, agent_id := some id, timestamp := some now }) ∧
    (∀ (ids : List String) (now : Nat), ids.Nodup → (∀ s ∈ ids, s ≠ "") →
      ids.length = MAX_CONNECTIONS →
      (∀ r ∈ (regSeq AgentInterface.init ids now).2, r.success = true) ∧
      (regSeq AgentInterface.init ids now).1.registered_agents.length =
        MAX_CONNECTIONS ∧
      (∀ (idNew : String) (now₂ : Nat), idNew ≠ "" →
        ((regSeq AgentInterface.init ids now).1.register_agent
          { id := some idNew } now₂).2 =
          { success := false, reason := some "Maximum connections reached" })) := by
  refine ⟨?_, ?_, ?_, ?_, ?_⟩
  · intro ai d now hf
    rw [AgentInterface.register_agent, if_pos hf]
  · intro ai id now hid hge
    rw [register_agent_eq ai hid now, if_pos hge]
  · intro ai id now hid hlt hmem
    rw [register_agent_eq ai hid now, if_neg (by omega), if_pos hmem]
  · intro ai id now hid hlt hmem
    have hnotmem : id ∉ ai.registered_agents.map Prod.fst := by
      intro hm
      rw [(dictMem_iff _ _).mpr hm] at hmem
      cases hmem
    have hreg : ai.register_agent { id := some id } now =
        ({ ai with
            registered_agents :=
              dictSet ai.registered_agents id { id := some id },
            agent_states :=
              dictSet ai.agent_states id AgentState.INITIALIZING },
         { success := true, agent_id := some id, timestamp := some now }) := by
      rw [register_agent_eq ai hid now, if_neg (by omega),
        if_neg (by simp [hmem])]
    refine ⟨?_, ?_, ?_⟩
    · rw [hreg]
      exact dictSet_of_not_mem hnotmem _
    · rw [hreg]
      exact dictGet_set_self _ _ _
    · rw [hreg]
  · intro ids now hnd hval hlen
    have hspec := regSeq_spec ids AgentInterface.init now hnd hval
      (by intro s _ hm; simp [AgentInterface.init] at hm)
      (by simp [AgentInterface.init, hlen])
    have hcount : (regSeq AgentInterface.init ids now).1.registered_agents.length =
        MAX_CONNECTIONS := by
      have hm := congrArg List.length hspec.1
      simp only [List.length_map, List.length_append] at hm
      simpa [AgentInterface.init, hlen] using hm
    refine ⟨hspec.2, hcount, ?_⟩
    intro idNew now₂ hne
    rw [register_agent_eq _ hne now₂, if_pos (by omega)]

/-- Witness for C7: a missing id, a duplicate id on a small registry,
and a fresh registration, each behaving as characterised. -/
theorem claim_c7_witness :
    AgentInterface.init.register_agent { id := none } 0 =
      (AgentInterface.init,
       { success := false, reason := some "No agent ID provided" }) ∧
    (wAi1.register_agent { id := some "a" } 1).2 =
      { success := false, reason := some "Agent already registered" } ∧
    (wAi1.register_agent { id := some "b" } 2).2 =
      { success := true, agent_id := some "b", timestamp := some 2 } ∧
    dictGet ((wAi1.register_agent { id := some "b" } 2).1).agent_states "b" =
      some AgentState.INITIALIZING := by
  refine ⟨?_, ?_, ?_, ?_⟩
  · exact claim_c7_register_agent.1 AgentInterface.init { id := none } 0 rfl
  · have h := claim_c7_register_agent.2.2.1 wAi1 "a" 1 (by decide)
      (by decide) (by decide)
    rw [h]
  · exact (claim_c7_register_agent.2.2.2.1 wAi1 "b" 2 (by decide)
      (by decide) (by decide)).2.2
  · exact (claim_c7_register_agent.2.2.2.1 wAi1 "b" 2 (by decide)
      (by decide) (by decide)).2.1

/-- Counterexample to C7 as stated: after 1000 successful registrations
including the id `"a"`, re-registering `"a"` is refused with reason
"Maximum connections reached", not "Agent already registered" — the
capacity check precedes the duplicate check. -/
theorem claim_c7_counterexample :
    "a" ∈ (regSeq AgentInterface.init wIds 0).1.registered_agents.map Prod.fst ∧
    ((regSeq AgentInterface.init wIds 0).1.register_agent
      { id := some "a" } 1).2.reason = some "Maximum connections reached" ∧
    ((regSeq AgentInterface.init wIds 0).1.register_agent
      { id := some "a" } 1).2.reason ≠ some "Agent already registered" := by
  have hspec := regSeq_spec wIds AgentInterface.init 0 wIds_nodup wIds_ne_empty
    (by intro s _ hm; simp [AgentInterface.init] at hm)
    (by simp [AgentInterface.init, wIds])
  have hwlen : wIds.length = MAX_CONNECTIONS := by
    rw [wIds, List.length_map, List.length_range]
  have hcount : (regSeq AgentInterface.init wIds 0).1.registered_agents.length =
      MAX_CONNECTIONS := by
    have hm := congrArg List.length hspec.1
    rw [List.length_map, List.length_append, List.length_map, hwlen] at hm
    have h0 : AgentInterface.init.registered_agents.length = 0 := rfl
    rw [h0] at hm
    omega
  have hmem : "a" ∈ (regSeq AgentInterface.init wIds 0).1.registered_agents.map
      Prod.fst := by
    rw [hspec.1]
    have ha : "a" ∈ wIds := by
      have h0 : uid 0 = "a" := by decide
      rw [← h0]
      exact List.mem_map.mpr ⟨0, List.mem_range.mpr (by decide), rfl⟩
    simp only [AgentInterface.init, List.map_nil, List.nil_append]
    exact ha
  have hfail : ((regSeq AgentInterface.init wIds 0).1.register_agent
      { id := some "a" } 1).2 =
      { success := false, reason := some "Maximum connections reached" } := by
    rw [register_agent_eq _ (by decide) 1, if_pos (by omega)]
  refine ⟨hmem, ?_, ?_⟩
  · rw [hfail]
  · rw [hfail]
    simp

/-! ## Claim C8 -/

/-- Claim C8 (code bug): the janitor pass does not do what the claim
says.  (1) With one connection idle `31 s > CONNECTION_TIMEOUT`, the
pass never completes: `_cleanup_inactive_connections` iterates while
holding the registry's non-reentrant lock and calls
`_disconnect_agent`, which re-acquires that lock — a deadlock — so the
agent is neither disconnected nor removed.  (2) With a connection idle
one day and five seconds (`86405 s`), the pass completes but leaves the
connection connected and `ACTIVE`, because the code compares
`timedelta.seconds` (the day-less seconds component, `86405 % 86400 = 5`)
instead of the total idle time.  (3) When the pass does complete it does
remove orphaned event-handler tables. -/
theorem claim_c8_janitor_code_bug :
    timedeltaSeconds (31 - 0) > CONNECTION_TIMEOUT ∧
    c8ai.janitor_pass 31 = none ∧
    (86405 : Nat) - 0 > CONNECTION_TIMEOUT ∧
    (∃ s, c8ai.janitor_pass 86405 = some s ∧
      dictMem s.active_connections "agent1" = true ∧
      dictGet s.agent_states "agent1" = some AgentState.ACTIVE) ∧
    (∃ s, c8aiOrphan.janitor_pass 86405 = some s ∧ s.event_handlers = []) := by
  refine ⟨by decide, rfl, by decide, ⟨_, rfl, rfl, rfl⟩, ⟨_, rfl, rfl⟩⟩

/-! ## Claim C4 -/

theorem pyMin_le_mem {l : List String} {m : String} (h : pyMin l = some m) :
    ∀ x ∈ l, m ≤ x := by
  match l with
  | [] => cases h
  | a :: as =>
    simp only [pyMin, Option.some.injEq] at h
    obtain ⟨h1, h2⟩ := pyFoldMin_le a as
    intro x hx
    rcases List.mem_cons.mp hx with he | hm
    · rw [he, ← h]
      exact h1
    · rw [← h]
      exact h2 x hm

theorem trim_save_states_get {σ : Type} (c : SandboxController σ)
    {k : String} {blob : σ}
    (hget : dictGet c.save_states k = some blob)
    (hkeep : c.save_states.length ≤ MAX_SAVE_STATES ∨
      ∃ k₀ ∈ c.save_states.map Prod.fst, k₀ < k) :
    dictGet ((c.trim_save_states).save_states) k = some blob := by
  rw [SandboxController.trim_save_states]
  split
  · rename_i hgt
    rcases hkeep with hle | ⟨k₀, hk₀mem, hk₀lt⟩
    · omega
    · match hm : pyMin (c.save_states.map Prod.fst) with
      | some m =>
        simp only
        have hmle : m ≤ k₀ := pyMin_le_mem hm k₀ hk₀mem
        have hne : m ≠ k := ne_of_lt (lt_of_le_of_lt hmle hk₀lt)
        rw [dictGet_del_ne _ hne]
        exact hget
      | none =>
        match hss : c.save_states, hm with
        | [], _ => rw [hss] at hgt; simp at hgt
  · exact hget

theorem exec_save_fields {σ : Type} (c : SandboxController σ)
    (params : Option Params) (t : Nat) (hproc : c.is_processing = false) :
    (c.execute_command ControlCommand.SAVE params t).2 =
      { success := true, save_id := some (pyStr t), timestamp := some t } ∧
    ((c.execute_command ControlCommand.SAVE params t).1).save_states =
      (SandboxController.trim_save_states
        { c with
            is_processing := true,
            save_states :=
              dictSet c.save_states (pyStr t) c.simulation.get_state }).save_states ∧
    ((c.execute_command ControlCommand.SAVE params t).1).simulation =
      c.simulation ∧
    ((c.execute_command ControlCommand.SAVE params t).1).is_processing = false := by
  have hnb : ¬ (c.is_processing = true) := by simp [hproc]
  refine ⟨?_, ?_, ?_, ?_⟩ <;>
    (simp only [SandboxController.execute_command]
     rw [if_neg hnb]
     try rfl)
  -- the simulation component: trim_save_states only rewrites save_states,
  -- so the projection needs the split on its internal if/match
  show (SandboxController.trim_save_states _).simulation = c.simulation
  rw [SandboxController.trim_save_states]
  (repeat' split) <;> rfl

theorem exec_load_hit {σ : Type} (c : SandboxController σ) (sid : String)
    (blob : σ) (t : Nat) (hproc : c.is_processing = false) (hne : sid ≠ "")
    (hget : dictGet c.save_states sid = some blob) :
    (c.execute_command ControlCommand.LOAD (some [("save_id", sid)]) t).2 =
      { success := true, save_id := some sid, timestamp := some t } ∧
    ((c.execute_command ControlCommand.LOAD (some [("save_id", sid)]) t).1).simulation =
      c.simulation.set_state blob := by
  have hnb : ¬ (c.is_processing = true) := by simp [hproc]
  have hmem : dictMem c.save_states sid = true := by
    rw [dictMem_iff]
    exact dictGet_isSome_mem hget
  have hd : ({ c with is_processing := true } :
      SandboxController σ).dispatch ControlCommand.LOAD
        (some [("save_id", sid)]) t =
      ({ c with is_processing := true, simulation := c.simulation.set_state blob },
       Except.ok { success := true, save_id := some sid, timestamp := some t }) := by
    show ({ c with is_processing := true } :
      SandboxController σ).load_state (some [("save_id", sid)]) t = _
    have hstep : Params.pyGet [("save_id", sid)] "save_id" = some sid := rfl
    simp only [SandboxController.load_state, hstep]
    rw [if_neg (by simp [hne, hmem])]
    have hget' : dictGet ({ c with is_processing := true } :
        SandboxController σ).save_states sid = some blob := hget
    rw [hget']
  constructor
  · simp only [SandboxController.execute_command]
    rw [if_neg hnb, hd]
  · simp only [SandboxController.execute_command]
    rw [if_neg hnb, hd]
    rfl

/-- Claim C4 (amended): `Save` followed by `Load` of the returned
`saveId`, with no intervening mutation, succeeds and restores the
subsystem state byte-identical to the state at the moment of the Save —
PROVIDED the fresh snapshot itself is not evicted by
`_trim_save_states`, which is guaranteed when the store holds fewer
than `MAX_SAVE_STATES` snapshots, or when every stored saveId is
string-smaller than the new one (true for equal-length timestamps under
a monotone clock).  Without that proviso the fresh snapshot can be the
lexicographic minimum of a full store and is then evicted immediately,
making the Load fail (see the counterexample). -/
theorem claim_c4_save_load_roundtrip {σ : Type} (c : SandboxController σ)
    (params : Option Params) (now₁ now₂ : Nat)
    (hproc : c.is_processing = false)
    (hroom : c.save_states.length < MAX_SAVE_STATES ∨
      ∀ k ∈ c.save_states.map Prod.fst, k < pyStr now₁) :
    (c.execute_command ControlCommand.SAVE params now₁).2 =
      { success := true, save_id := some (pyStr now₁), timestamp := some now₁ } ∧
    (((c.execute_command ControlCommand.SAVE params now₁).1).execute_command
      ControlCommand.LOAD (some [("save_id", pyStr now₁)]) now₂).2 =
      { success := true, save_id := some (pyStr now₁), timestamp := some now₂ } ∧
    ((((c.execute_command ControlCommand.SAVE params now₁).1).execute_command
      ControlCommand.LOAD (some [("save_id", pyStr now₁)]) now₂).1).simulation.data =
      c.simulation.get_state := by
  obtain ⟨hres, hsv, hsim, hpr⟩ := exec_save_fields c params now₁ hproc
  have hget : dictGet ((c.execute_command ControlCommand.SAVE params now₁).1).save_states
      (pyStr now₁) = some c.simulation.get_state := by
    rw [hsv]
    apply trim_save_states_get
    · show dictGet (dictSet c.save_states (pyStr now₁) c.simulation.get_state)
        (pyStr now₁) = some c.simulation.get_state
      exact dictGet_set_self _ _ _
    · rcases hroom with hlt | hall
      · left
        have hle := dictSet_length_le c.save_states (pyStr now₁)
          c.simulation.get_state
        show (dictSet c.save_states (pyStr now₁)
          c.simulation.get_state).length ≤ MAX_SAVE_STATES
        omega
      · match hss : c.save_states with
        | [] =>
          left
          show (dictSet [] (pyStr now₁)
            c.simulation.get_state).length ≤ MAX_SAVE_STATES
          simp [dictSet, MAX_SAVE_STATES]
        | q :: rest =>
          right
          have hfresh : pyStr now₁ ∉ (q :: rest).map Prod.fst := by
            intro hmem
            have := hall (pyStr now₁) (by rw [hss]; exact hmem)
            exact absurd this (lt_irrefl _)
          show ∃ k₀ ∈ (dictSet (q :: rest) (pyStr now₁)
            c.simulation.get_state).map Prod.fst, k₀ < pyStr now₁
          rw [dictSet_of_not_mem hfresh]
          refine ⟨q.1, ?_, ?_⟩
          · simp
          · exact hall q.1 (by rw [hss]; simp)
  have hload := exec_load_hit ((c.execute_command ControlCommand.SAVE params now₁).1)
    (pyStr now₁) c.simulation.get_state now₂ hpr (pyStr_ne_empty now₁) hget
  refine ⟨hres, hload.1, ?_⟩
  rw [hload.2, hsim]
  rfl

/-- Witness for C4: on an empty store, `Save` at clock 5 then `Load` of
saveId `"5"` succeeds and restores the data blob `42`. -/
theorem claim_c4_witness :
    (wCtrl.execute_command ControlCommand.SAVE none 5).2 =
      { success := true, save_id := some "5", timestamp := some 5 } ∧
    (((wCtrl.execute_command ControlCommand.SAVE none 5).1).execute_command
      ControlCommand.LOAD (some [("save_id", "5")]) 6).2 =
      { success := true, save_id := some "5", timestamp := some 6 } ∧
    ((((wCtrl.execute_command ControlCommand.SAVE none 5).1).execute_command
      ControlCommand.LOAD (some [("save_id", "5")]) 6).1).simulation.data = 42 := by
  have h := claim_c4_save_load_roundtrip wCtrl none 5 6 rfl
    (Or.inl (by decide))
  have h5 : pyStr 5 = "5" := by decide
  refine ⟨?_, ?_, ?_⟩
  · rw [← h5]
    exact h.1
  · rw [← h5]
    exact h.2.1
  · rw [← h5]
    exact h.2.2

/-- Counterexample to C4 as stated: with ten snapshots keyed
`"20" … "29"`, a `Save` at clock 100 returns saveId `"100"` — but
`_trim_save_states` evicts `min(keys) = "100"` (the string minimum is
the NEW snapshot), so loading the returned saveId immediately fails
with "Save state not found". -/
theorem claim_c4_counterexample :
    (c4ctrlTen.execute_command ControlCommand.SAVE none 100).2 =
      { success := true, save_id := some "100", timestamp := some 100 } ∧
    "100" ∉ ((c4ctrlTen.execute_command ControlCommand.SAVE none 100).1).save_states.map
      Prod.fst ∧
    (((c4ctrlTen.execute_command ControlCommand.SAVE none 100).1).execute_command
      ControlCommand.LOAD (some [("save_id", "100")]) 101).2 =
      { success := false, reason := some "Save state not found" } := by
  refine ⟨by decide, by decide, by decide⟩

/-! ## Claim C6 -/

theorem trim_save_states_evicts {σ : Type} (c' : SandboxController σ)
    (p₀ : String × σ) (ssTail : List (String × σ)) (kNew : String) (blob : σ)
    (hss : c'.save_states = p₀ :: ssTail ++ [(kNew, blob)])
    (hlen : (p₀ :: ssTail).length = MAX_SAVE_STATES)
    (hlt : ∀ x ∈ ssTail.map Prod.fst ++ [kNew], p₀.1 < x) :
    (c'.trim_save_states).save_states = ssTail ++ [(kNew, blob)] := by
  have hlen2 : c'.save_states.length > MAX_SAVE_STATES := by
    rw [hss]
    simp only [List.length_cons, List.length_append] at hlen ⊢
    omega
  have hmin : pyMin (c'.save_states.map Prod.fst) = some p₀.1 := by
    rw [hss]
    simp only [List.map_cons, List.map_append, List.map_nil, pyMin,
      Option.some.injEq, List.cons_append]
    exact pyFoldMin_eq_of_lt (by simpa using hlt)
  have hnotin : p₀.1 ∉ (ssTail ++ [(kNew, blob)]).map Prod.fst := by
    intro hm
    simp only [List.map_append, List.map_cons, List.map_nil] at hm
    have := hlt p₀.1 (by simpa using hm)
    exact absurd this (lt_irrefl _)
  simp only [SandboxController.trim_save_states]
  rw [if_pos hlen2, hmin]
  show dictDel c'.save_states p₀.1 = ssTail ++ [(kNew, blob)]
  rw [hss, List.cons_append]
  rw [dictDel_cons, if_pos rfl, dictDel_eq_self (by simpa using hnotin)]

/-- Claim C6 (amended): when a `Save` makes the snapshot store exceed
`MAX_SAVE_STATES`, `_trim_save_states` evicts the record whose saveId is
the string-minimum of the keys.  When all stored saveIds are decimal
timestamps of equal digit length captured under a strictly increasing
clock, that string-minimum IS the earliest-captured record, so exactly
the oldest snapshot is evicted and never a newer one; with saveIds of
unequal digit length a newer snapshot can be evicted instead (see the
counterexample). -/
theorem claim_c6_eviction {σ : Type} (c : SandboxController σ)
    (params : Option Params) (ts : List Nat) (tNew : Nat)
    (hproc : c.is_processing = false)
    (hkeys : c.save_states.map Prod.fst = ts.map pyStr)
    (hfull : c.save_states.length = MAX_SAVE_STATES)
    (hmono : ts.Chain' (· < ·))
    (hupper : ∀ t ∈ ts, t < tNew)
    (hdig : ∀ t ∈ ts, numDigits t = numDigits tNew) :
    ((c.execute_command ControlCommand.SAVE params tNew).1).save_states =
      c.save_states.tail ++ [(pyStr tNew, c.simulation.get_state)] ∧
    ((c.execute_command ControlCommand.SAVE params tNew).1).save_states.map
      Prod.fst = (ts.tail ++ [tNew]).map pyStr := by
  obtain ⟨_, hsv, _, _⟩ := exec_save_fields c params tNew hproc
  have hpair : ts.Pairwise (· < ·) := List.chain'_iff_pairwise.mp hmono
  have hkeylt : ∀ t ∈ ts, pyStr t < pyStr tNew := fun t ht =>
    (pyStr_lt_iff (hdig t ht)).mpr (hupper t ht)
  have hfresh : pyStr tNew ∉ c.save_states.map Prod.fst := by
    rw [hkeys]
    intro hm
    obtain ⟨t, ht, he⟩ := List.mem_map.mp hm
    have hlt := hkeylt t ht
    rw [he] at hlt
    exact lt_irrefl _ hlt
  have hset : dictSet c.save_states (pyStr tNew) c.simulation.get_state =
      c.save_states ++ [(pyStr tNew, c.simulation.get_state)] :=
    dictSet_of_not_mem hfresh _
  match hts : ts, hkeys, hpair, hkeylt, hupper, hdig with
  | [], hkeys, _, _, _, _ =>
    exfalso
    have : c.save_states = [] := by
      have hm := congrArg List.length hkeys
      simp only [List.length_map, List.map_nil, List.length_nil] at hm
      exact List.length_eq_zero.mp hm
    rw [this] at hfull
    simp [MAX_SAVE_STATES] at hfull
  | t₀ :: ts', hkeys, hpair, hkeylt, hupper, hdig =>
    match hssd : c.save_states, hkeys, hfull, hset with
    | [], hkeys, _, _ => simp at hkeys
    | p₀ :: ssTail, hkeys, hfull, hset =>
      simp only [List.map_cons, List.cons.injEq] at hkeys
      obtain ⟨hp₀, htail⟩ := hkeys
      have hdig' : ∀ t ∈ t₀ :: ts', numDigits t₀ = numDigits t := by
        intro t ht
        rw [hdig t₀ (List.mem_cons_self _ _), hdig t ht]
      have hlt : ∀ x ∈ ssTail.map Prod.fst ++ [pyStr tNew], p₀.1 < x := by
        intro x hx
        rw [hp₀]
        rcases List.mem_append.mp hx with hm | hm
        · rw [htail] at hm
          obtain ⟨t, ht, he⟩ := List.mem_map.mp hm
          rw [← he]
          have ht₀t : t₀ < t := by
            rcases List.pairwise_cons.mp hpair with ⟨hhead, _⟩
            exact hhead t ht
          exact (pyStr_lt_iff (hdig' t (List.mem_cons_of_mem _ ht))).mpr ht₀t
        · have : x = pyStr tNew := by simpa using hm
          rw [this]
          exact (pyStr_lt_iff (hdig t₀ (List.mem_cons_self _ _))).mpr
            (hupper t₀ (List.mem_cons_self _ _))
      have hev := trim_save_states_evicts
        ({ c with
            is_processing := true,
            save_states :=
              dictSet (p₀ :: ssTail) (pyStr tNew) c.simulation.get_state })
        p₀ ssTail (pyStr tNew) c.simulation.get_state
        (by
          show dictSet (p₀ :: ssTail) (pyStr tNew) c.simulation.get_state = _
          rw [hset])
        hfull hlt
      constructor
      · rw [hsv, hssd, hev]
        rfl
      · rw [hsv, hssd, hev]
        simp only [List.map_append, List.map_cons, List.map_nil, htail,
          List.tail_cons]

/-- Witness for C6: a full store with equal-length saveIds `"20" … "29"`
captured in increasing clock order; a `Save` at clock 30 evicts exactly
the earliest snapshot (`"20"`). -/
theorem claim_c6_witness :
    ((c6full.execute_command ControlCommand.SAVE none 30).1).save_states =
      c6full.save_states.tail ++ [(pyStr 30, c6full.simulation.get_state)] ∧
    ((c6full.execute_command ControlCommand.SAVE none 30).1).save_states.map
      Prod.fst =
      ((((List.range 10).map (fun i => 20 + i)).tail ++ [30]).map pyStr) := by
  have h := claim_c6_eviction c6full none ((List.range 10).map (fun i => 20 + i))
    30 rfl (by decide) (by decide)
    (by
      rw [List.chain'_iff_pairwise]
      exact List.Pairwise.map _ (fun a b hab => by omega)
        (List.pairwise_lt_range 10))
    (by decide) (by decide)
  exact h

/-- Counterexample to C6 as stated: eleven `Save`s at clock values
`9, 10, …, 19`.  The eleventh save triggers eviction of
`min(keys) = "10"` — the SECOND-captured snapshot — while the oldest
saveId `"9"` stays in the store: the evicted record is not the oldest,
and a newer one is evicted instead. -/
theorem claim_c6_counterexample :
    c6ctrl.save_states.map Prod.fst =
      ["9", "11", "12", "13", "14", "15", "16", "17", "18", "19"] ∧
    "9" ∈ c6ctrl.save_states.map Prod.fst ∧
    "10" ∉ c6ctrl.save_states.map Prod.fst := by
  refine ⟨by decide, by decide, by decide⟩

end Verai
